import Mathlib

/-!
Verification development for the gpu-admission decision core
(`pkg/algorithm/share.go` and `pkg/algorithm/allocate.go`).

The Go code is shallowly embedded:

* `float64` arithmetic is modelled by exact real arithmetic on `ℝ`.
  The single place where IEEE special values arise in the source is the
  relative-closeness division `SMmin[i] / (SMmax[i] + SMmin[i])` in
  `Evaluate` (share.go line 154): both distances are non-negative, so the
  denominator vanishes exactly when numerator and denominator are both
  zero and the Go program produces `NaN (0/0)`.  Scores are therefore
  modelled as `Option ℝ`, with `none` standing for NaN; the Go comparison
  `RC[i] > max`, which is false whenever an operand is NaN, is modelled by
  `scoreGt` below.
* the run-time panics of the source (indexing `decisionMatrix[0]` on a
  zero-device node in share.go line 76, and the integer division by a zero
  `deviceCount` in allocate.go line 99) are modelled by an outer `Option`:
  `none` is a panic, `some` is a normal return.
* the external `pkg/device` and `pkg/util` collaborators are not part of
  the given sources; they are modelled from the spec where indicated.
-/

/-- Device record of the external registry.  Modelled from the spec (§3, §6):
the `pkg/device` package is not among the given sources; the accessors
`GetID`, `AllocatableCores`, `AllocatableMemory`, `IsolatedTime` and
`NumberofContainer` used by share.go are modelled as fields. -/
structure DeviceInfo where
  id : Nat
  allocatableCores : Nat
  allocatableMemory : Nat
  isolatedTime : Nat
  numberofContainer : Nat
deriving DecidableEq, Repr

/-- Node record of the external registry.  Modelled from the spec (§3, §6):
an ordered collection of devices (the `GetDeviceMap()[0..count-1]`
enumeration of share.go lines 51-53 is the list order) together with the
node name and the total virtual-memory capacity metadata. -/
structure NodeInfo where
  name : String
  totalVMemory : Nat
  devices : List DeviceInfo
deriving DecidableEq, Repr

/-- Comparator `device.ByAllocatableCores` (ascending).  Modelled from the
spec (§2, §4.1 step 2: "primary key allocatable cores"). -/
def ByAllocatableCores (a b : DeviceInfo) : Bool :=
  a.allocatableCores < b.allocatableCores

/-- Comparator `device.ByAllocatableMemory` (ascending).  Modelled from the
spec (§4.1 step 2: "tie-break allocatable memory"). -/
def ByAllocatableMemory (a b : DeviceInfo) : Bool :=
  a.allocatableMemory < b.allocatableMemory

/-- Comparator `device.ByID` (ascending).  Modelled from the spec
(§4.1 step 2: "final tie-break device identifier"). -/
def ByID (a b : DeviceInfo) : Bool :=
  a.id < b.id

/-- The comparator chain of `shareModePriority.Less` (share.go lines
204-218): try each comparator in turn; an earlier comparator that orders
the pair decides, the last comparator is returned as-is. -/
def lessChain : List (DeviceInfo → DeviceInfo → Bool) → DeviceInfo → DeviceInfo → Bool
  | [], _, _ => false
  | [l], a, b => l a b
  | l :: l' :: ls, a, b =>
    if l a b then true
    else if l b a then false
    else lessChain (l' :: ls) a b

/-- The strict order used by `shareModeSort(ByAllocatableCores,
ByAllocatableMemory, ByID)` in share.go line 48. -/
def devLess (a b : DeviceInfo) : Prop :=
  lessChain [ByAllocatableCores, ByAllocatableMemory, ByID] a b = true

instance : DecidableRel devLess := fun a b =>
  inferInstanceAs (Decidable (_ = true))

/-- The base ordering of `Evaluate`: the device list of the node sorted by
the comparator chain (share.go line 56, `sorter.Sort(tmpStore)`).
`sort.Sort` only guarantees a permutation ordered by `Less`; insertion
sort is one such sort. -/
def sortedDevs (node : NodeInfo) : List DeviceInfo :=
  List.insertionSort devLess node.devices

/-- Row of the decision matrix for one device (share.go lines 62-73):
allocatable cores, allocatable memory, the adjusted remaining wait
`max 0 (estimatedTime - isolatedTime)` (truncated subtraction on `ℕ`
matches the `int` clamp of lines 66-69), and the running container
count. -/
noncomputable def deviceRow (est : Nat) (d : DeviceInfo) : Fin 4 → ℝ :=
  ![(d.allocatableCores : ℝ), (d.allocatableMemory : ℝ),
    ((est - d.isolatedTime : Nat) : ℝ), (d.numberofContainer : ℝ)]

/-- Euclidean norm of column `i` of the decision matrix (share.go lines
80-86). -/
noncomputable def colNorm (est : Nat) (ds : List DeviceInfo) (i : Fin 4) : ℝ :=
  Real.sqrt ((ds.map fun d => deviceRow est d i ^ 2).sum)

/-- The fixed criterion weights (share.go line 88). -/
noncomputable def weightVec : Fin 4 → ℝ := ![0.3, 0.3, 0.2, 0.2]

/-- Weighted normalized matrix entry (share.go lines 90-98): zero when the
column norm is zero, otherwise `weight * entry / norm`. -/
noncomputable def normEntry (est : Nat) (ds : List DeviceInfo) (d : DeviceInfo) (i : Fin 4) : ℝ :=
  if colNorm est ds i = 0 then 0
  else weightVec i * (deviceRow est d i / colNorm est ds i)

/-- Column `i` of the weighted normalized decision matrix, in row order. -/
noncomputable def colEntries (est : Nat) (ds : List DeviceInfo) (i : Fin 4) : List ℝ :=
  ds.map fun d => normEntry est ds d i

/-- Maximum of a list of reals, seeded at the head (the `Amax := row 0;
fold` pattern of share.go lines 100-138); `0` on the empty list, which the
source never reaches. -/
noncomputable def listMax : List ℝ → ℝ
  | [] => 0
  | x :: l => l.foldl max x

/-- Minimum of a list of reals, seeded at the head; `0` on the empty
list. -/
noncomputable def listMin : List ℝ → ℝ
  | [] => 0
  | x :: l => l.foldl min x

/-- The ideal vector `Amax` (share.go lines 100-138): column maximum for
the benefit criteria 0-2, column minimum for the cost criterion 3
(running containers, lines 131-138 flip the comparisons). -/
noncomputable def AmaxV (est : Nat) (ds : List DeviceInfo) (i : Fin 4) : ℝ :=
  if i.val = 3 then listMin (colEntries est ds i) else listMax (colEntries est ds i)

/-- The anti-ideal vector `Amin` (share.go lines 100-138): column minimum
for the benefit criteria 0-2, column maximum for the cost criterion 3. -/
noncomputable def AminV (est : Nat) (ds : List DeviceInfo) (i : Fin 4) : ℝ :=
  if i.val = 3 then listMax (colEntries est ds i) else listMin (colEntries est ds i)

/-- Squared Euclidean distance of a device's normalized row to the ideal
vector (`sum1` of share.go lines 141-146). -/
noncomputable def distPosSq (est : Nat) (ds : List DeviceInfo) (d : DeviceInfo) : ℝ :=
  ∑ i : Fin 4, (normEntry est ds d i - AmaxV est ds i) ^ 2

/-- Squared Euclidean distance of a device's normalized row to the
anti-ideal vector (`sum2` of share.go lines 141-146). -/
noncomputable def distNegSq (est : Nat) (ds : List DeviceInfo) (d : DeviceInfo) : ℝ :=
  ∑ i : Fin 4, (normEntry est ds d i - AminV est ds i) ^ 2

/-- Distance to the ideal vector (`SMmax`, share.go line 147). -/
noncomputable def distPos (est : Nat) (ds : List DeviceInfo) (d : DeviceInfo) : ℝ :=
  Real.sqrt (distPosSq est ds d)

/-- Distance to the anti-ideal vector (`SMmin`, share.go line 148). -/
noncomputable def distNeg (est : Nat) (ds : List DeviceInfo) (d : DeviceInfo) : ℝ :=
  Real.sqrt (distNegSq est ds d)

/-- Relative closeness `RC = SMmin / (SMmax + SMmin)` (share.go line 154).
The division is unguarded in the source; both distances are non-negative,
so a zero denominator means `0 / 0`, which is IEEE NaN — modelled as
`none`. -/
noncomputable def rcScore (est : Nat) (ds : List DeviceInfo) (d : DeviceInfo) : Option ℝ :=
  if distPos est ds d + distNeg est ds d = 0 then none
  else some (distNeg est ds d / (distPos est ds d + distNeg est ds d))

/-- The Go float comparison `RC[i] > max` of share.go line 161: false
whenever an operand is NaN (`none`), otherwise the real `>`. -/
def scoreGt : Option ℝ → Option ℝ → Prop
  | some a, some b => b < a
  | some _, none => False
  | none, _ => False

noncomputable instance : DecidableRel scoreGt := fun a b => by
  cases a <;> cases b <;> simp only [scoreGt] <;> infer_instance

/-- The selection loop of share.go lines 158-173: running maximum replaced
only on strict `>`; the accumulator starts at the first sorted device and
its score. -/
noncomputable def selectLoop : List (DeviceInfo × Option ℝ) → DeviceInfo × Option ℝ → DeviceInfo
  | [], acc => acc.1
  | p :: rest, acc => selectLoop rest (if scoreGt p.2 acc.2 then p else acc)

/-- `shareMode.Evaluate` (share.go lines 43-178).  The `cores` and
`memory` arguments are unused by the active code (the capacity filter is
commented out, lines 165-171).  On a node with zero devices the source
panics with an index-out-of-range at `decisionMatrix[0]` (line 76),
modelled as `none`; otherwise the result is the singleton list holding
the device selected by the TOPSIS pipeline. -/
noncomputable def Evaluate (node : NodeInfo) (cores memory estimatedTime : Nat) :
    Option (List DeviceInfo) :=
  match sortedDevs node with
  | [] => none
  | d0 :: rest =>
    some [selectLoop ((d0 :: rest).map fun d => (d, rcScore estimatedTime (d0 :: rest) d))
      (d0, rcScore estimatedTime (d0 :: rest) d0)]

/-- Container resource request.  Modelled from the spec (§6): the
request-attribute collaborators `requestedCores` / `requestedMemory`
(`util.GetGPUResourceOfContainer` with the vcore / vmemory keys) are
modelled as fields. -/
structure Container where
  vcore : Nat
  vmemory : Nat
deriving DecidableEq, Repr

/-- Workload descriptor.  Modelled from the spec (§3, §6): containers, a
string-keyed annotation map, and the per-container estimated-execution
-time descriptor consumed by `util.GetEstimatedTimeOfContainer` (absent
entries make the lookup fail). -/
structure Pod where
  containers : List Container
  annotations : String → Option String
  estimatedTimes : List (Option Nat)

/-- One booked `AddUsedResources` call: device id, cores, memory and the
fourth argument (the initial elapsed-isolation-time slot of the spec's
`node.addUsedResources(deviceID, cores, memory, initialElapsedTime)`). -/
structure Commit where
  devId : Nat
  cores : Nat
  memory : Nat
  itime : Nat
deriving DecidableEq, Repr

/-- The fractional-GPU threshold `util.HundredCore`. -/
def HundredCore : Nat := 100

/-- Modelled from the spec (§6): `isGPURequestingContainer(container)` —
a container takes part in GPU allocation when it requests GPU cores or
GPU memory. -/
def IsGPURequiredContainer (c : Container) : Bool :=
  0 < c.vcore || 0 < c.vmemory

/-- Modelled from the spec (§6): `estimatedExecutionTime(workload,
containerIndex) → (duration, error)`; the lookup fails when no estimate
is recorded for the container. -/
def GetEstimatedTimeOfContainer (pod : Pod) (i : Nat) : Except String Nat :=
  match pod.estimatedTimes.getD i none with
  | some t => .ok t
  | none => .error "estimated time not found"

/-- Modelled from the spec (§4.2): the exclusive-mode evaluator is an
external collaborator with unspecified policy; a sufficient-capacity
-first choice of whole devices is used, returning `[]` when the node
cannot supply enough whole devices. -/
def ExclusiveEvaluate (node : NodeInfo) (cores memory : Nat) : List DeviceInfo :=
  let need := (cores + HundredCore - 1) / HundredCore
  let avail := node.devices.filter fun d => HundredCore ≤ d.allocatableCores
  if avail.length < need then [] else avail.take need

/-- Modelled from the spec (§6): the registry books the committed cores
and memory against one device, increments its container count and
records the committed isolation time. -/
def updateDevice (d : DeviceInfo) (c m it : Nat) : DeviceInfo :=
  { d with
    allocatableCores := d.allocatableCores - c
    allocatableMemory := d.allocatableMemory - m
    isolatedTime := d.isolatedTime + it
    numberofContainer := d.numberofContainer + 1 }

/-- Modelled from the spec (§6): `node.addUsedResources(deviceID, cores,
memory, initialElapsedTime) → error`; fails when the device id is not in
the registry. -/
def AddUsedResources (nd : NodeInfo) (devId c m it : Nat) : Except String NodeInfo :=
  if nd.devices.any fun d => d.id = devId then
    .ok { nd with devices := nd.devices.map fun d => if d.id = devId then updateDevice d c m it else d }
  else .error "device not found"

/-- The commit loop of `AllocateOne` (allocate.go lines 132-140): book
each returned device in order, stopping at the first failure; earlier
commits are not rolled back.  Besides the updated node, the list of
performed `AddUsedResources` calls is returned as a trace. -/
def commitUsed : NodeInfo → List DeviceInfo → Nat → Nat → Nat →
    Except String Unit × NodeInfo × List Commit
  | nd, [], _, _, _ => (.ok (), nd, [])
  | nd, d :: rest, vc, vm, it =>
    match AddUsedResources nd d.id vc vm it with
    | .error e => (.error e, nd, [])
    | .ok nd' =>
      match commitUsed nd' rest vc vm it with
      | (r, ndF, tr) => (r, ndF, ⟨d.id, vc, vm, it⟩ :: tr)

/-- `allocator.AllocateOne` (allocate.go lines 87-142).  The outer
`Option` is the panic monad: on a node whose device count is zero the
source divides by zero at line 99 (`nodeTotalMemory / deviceCount`)
before the estimated-time lookup.  A normal return carries the device
list or the error, the node state after any partial commits, and the
trace of commit calls.  Note line 134 passes `int(estimatedTime)` as the
fourth `AddUsedResources` argument. -/
noncomputable def AllocateOne (node : NodeInfo) (pod : Pod) (containerIndex : Nat)
    (container : Container) :
    Option (Except String (List DeviceInfo) × NodeInfo × List Commit) :=
  let nodeTotalMemory := node.totalVMemory
  let deviceCount := node.devices.length
  if deviceCount = 0 then none
  else
    let deviceTotalMemory := nodeTotalMemory / deviceCount
    let needCores := container.vcore
    let needMemory := container.vmemory
    match GetEstimatedTimeOfContainer pod containerIndex with
    | .error e => some (.error e, node, [])
    | .ok estimatedTime =>
      let shared := needCores < HundredCore
      let devsO := if shared then Evaluate node needCores needMemory estimatedTime
        else some (ExclusiveEvaluate node needCores needMemory)
      match devsO with
      | none => none
      | some devs =>
        if devs.isEmpty then some (.error "failed to allocate for container", node, [])
        else
          let vcore := if shared then needCores else HundredCore
          let vmemory := if shared then needMemory else deviceTotalMemory
          match commitUsed node devs vcore vmemory estimatedTime with
          | (.error e, nd', tr) => some (.error e, nd', tr)
          | (.ok _, nd', tr) => some (.ok devs, nd', tr)

/-- Modelled from the spec (§6): the per-container annotation key prefix
`util.PredicateGPUIndexPrefix` (the concrete string is immaterial). -/
def predicateGPUIndexKeyBase : String := "tkestack.io/predicate-gpu-idx-"

/-- Modelled from the spec (§6): the bound-node annotation key
`util.PredicateNode`. -/
def predicateNodeKey : String := "tkestack.io/predicate-node"

/-- Modelled from the spec (§6): the assignment-confirmed annotation key
`util.GPUAssigned`. -/
def gpuAssignedKey : String := "tkestack.io/gpu-assigned"

/-- Modelled from the spec (§6): the allocation-timestamp annotation key
`util.PredicateTimeAnnotation`. -/
def predicateTimeKey : String := "tkestack.io/predicate-time"

/-- Map update `annotations[k] = v` on the function model of the Go
annotation map. -/
def setAnn (ann : String → Option String) (k v : String) : String → Option String :=
  fun q => if q = k then some v else ann q

/-- The comma-joined decimal device identifiers written per container
(allocate.go lines 74-77). -/
def joinIDs (devs : List DeviceInfo) : String :=
  String.intercalate "," (devs.map fun d => toString d.id)

/-- The per-container loop of `allocator.Allocate` (allocate.go lines
64-78): skip containers without GPU requests, call `AllocateOne` on the
original pod (threading the node state), and record the joined device
ids under the indexed annotation key.  On a container's failure the error
is returned; a panic (`none`) propagates. -/
noncomputable def allocateLoop (pod : Pod) :
    Nat → List Container → (String → Option String) → NodeInfo →
    Option (Except String ((String → Option String) × NodeInfo))
  | _, [], ann, nd => some (.ok (ann, nd))
  | i, c :: rest, ann, nd =>
    if IsGPURequiredContainer c then
      match AllocateOne nd pod i c with
      | none => none
      | some (.error e, _, _) => some (.error e)
      | some (.ok devs, nd', _) =>
        allocateLoop pod (i + 1) rest
          (setAnn ann (predicateGPUIndexKeyBase ++ toString i) (joinIDs devs)) nd'
    else allocateLoop pod (i + 1) rest ann nd

/-- `allocator.Allocate` (allocate.go lines 57-84).  The source deep
-copies the pod (line 60) and writes annotations only on the copy; the
input pod is only ever read.  The first component of the result is the
input pod object as it stands after the call.  The wall-clock nanosecond
timestamp of line 81 is passed in as `now`.  On success the returned pod
is the copy with the per-container keys plus the node name, the
`"false"` assigned flag and the timestamp. -/
noncomputable def Allocate (node : NodeInfo) (pod : Pod) (now : Nat) :
    Pod × Option (Except String (Pod × NodeInfo)) :=
  (pod,
   match allocateLoop pod 0 pod.containers pod.annotations node with
   | none => none
   | some (.error e) => some (.error e)
   | some (.ok (ann, nd')) =>
     let annF := setAnn (setAnn (setAnn ann predicateNodeKey node.name) gpuAssignedKey "false")
       predicateTimeKey (toString now)
     some (.ok ({ pod with annotations := annF }, nd')))

/-- The relative-closeness score of the `k`-th device of the base
ordering, as computed inside `Evaluate` (share.go lines 151-155); `none`
past the end of the list. -/
noncomputable def rcAt (est : Nat) (node : NodeInfo) (k : Nat) : Option ℝ :=
  match (sortedDevs node).get? k with
  | none => none
  | some d => rcScore est (sortedDevs node) d

/-- Device D1 of the spec's worked example (§8). -/
def dev1 : DeviceInfo := ⟨1, 40, 40, 0, 2⟩

/-- Device D2 of the spec's worked example (§8). -/
def dev2 : DeviceInfo := ⟨2, 80, 80, 0, 0⟩

/-- Device D3 of the spec's worked example (§8). -/
def dev3 : DeviceInfo := ⟨3, 10, 10, 5, 1⟩

/-- The three-device node of the spec's worked example (§8). -/
def node3 : NodeInfo := ⟨"node-a", 1000, [dev1, dev2, dev3]⟩

/-- A node with two identical best devices (ids 0 and 1) and one weaker
device, used to exercise the tie-break. -/
def nodeTie : NodeInfo := ⟨"tie", 60, [⟨0, 20, 20, 0, 0⟩, ⟨1, 20, 20, 0, 0⟩, ⟨2, 10, 10, 0, 0⟩]⟩

/-- A pod with one GPU container (20 cores, 20 memory) and a recorded
estimated execution time of 10. -/
def pod1 : Pod := ⟨[⟨20, 20⟩], fun _ => none, [some 10]⟩

/-- A pod with one GPU container whose estimated-execution-time lookup
fails. -/
def podBad : Pod := ⟨[⟨20, 20⟩], fun _ => none, [none]⟩

/-- A device with its running-container count increased by `δ` and every
other field unchanged. -/
def bumpCount (d : DeviceInfo) (δ : Nat) : DeviceInfo :=
  { d with numberofContainer := d.numberofContainer + δ }

lemma le_foldl_max (l : List ℝ) (x : ℝ) : x ≤ l.foldl max x := by
  induction l generalizing x with
  | nil => exact le_refl x
  | cons a t ih => exact le_trans (le_max_left x a) (ih (max x a))

lemma mem_le_foldl_max (l : List ℝ) (x y : ℝ) (hy : y ∈ l) : y ≤ l.foldl max x := by
  induction l generalizing x with
  | nil => cases hy
  | cons a t ih =>
    rcases List.mem_cons.mp hy with rfl | h
    · exact le_trans (le_max_right x y) (le_foldl_max t (max x y))
    · exact ih (max x a) h

lemma foldl_max_choice (l : List ℝ) (x : ℝ) : l.foldl max x = x ∨ l.foldl max x ∈ l := by
  induction l generalizing x with
  | nil => exact Or.inl rfl
  | cons a t ih =>
    rw [List.foldl_cons]
    rcases ih (max x a) with h | h
    · rcases le_total a x with hax | hax
      · exact Or.inl (by rw [h, max_eq_left hax])
      · exact Or.inr (by rw [h, max_eq_right hax]; exact List.mem_cons_self a t)
    · exact Or.inr (List.mem_cons_of_mem a h)

lemma foldl_min_le (l : List ℝ) (x : ℝ) : l.foldl min x ≤ x := by
  induction l generalizing x with
  | nil => exact le_refl x
  | cons a t ih => exact le_trans (ih (min x a)) (min_le_left x a)

lemma foldl_min_le_mem (l : List ℝ) (x y : ℝ) (hy : y ∈ l) : l.foldl min x ≤ y := by
  induction l generalizing x with
  | nil => cases hy
  | cons a t ih =>
    rcases List.mem_cons.mp hy with rfl | h
    · exact le_trans (foldl_min_le t (min x y)) (min_le_right x y)
    · exact ih (min x a) h

lemma foldl_min_choice (l : List ℝ) (x : ℝ) : l.foldl min x = x ∨ l.foldl min x ∈ l := by
  induction l generalizing x with
  | nil => exact Or.inl rfl
  | cons a t ih =>
    rw [List.foldl_cons]
    rcases ih (min x a) with h | h
    · rcases le_total x a with hax | hax
      · exact Or.inl (by rw [h, min_eq_left hax])
      · exact Or.inr (by rw [h, min_eq_right hax]; exact List.mem_cons_self a t)
    · exact Or.inr (List.mem_cons_of_mem a h)

lemma listMax_mem_le {l : List ℝ} {y : ℝ} (hy : y ∈ l) : y ≤ listMax l := by
  cases l with
  | nil => cases hy
  | cons x t =>
    rcases List.mem_cons.mp hy with rfl | h
    · exact le_foldl_max t y
    · exact mem_le_foldl_max t x y h

lemma listMax_choice {l : List ℝ} (h : l ≠ []) : listMax l ∈ l := by
  cases l with
  | nil => exact absurd rfl h
  | cons x t =>
    rcases foldl_max_choice t x with h1 | h1
    · rw [listMax, h1]; exact List.mem_cons_self x t
    · exact List.mem_cons_of_mem x (by rw [listMax]; exact h1)

lemma listMin_le_mem {l : List ℝ} {y : ℝ} (hy : y ∈ l) : listMin l ≤ y := by
  cases l with
  | nil => cases hy
  | cons x t =>
    rcases List.mem_cons.mp hy with rfl | h
    · exact foldl_min_le t y
    · exact foldl_min_le_mem t x y h

lemma listMin_choice {l : List ℝ} (h : l ≠ []) : listMin l ∈ l := by
  cases l with
  | nil => exact absurd rfl h
  | cons x t =>
    rcases foldl_min_choice t x with h1 | h1
    · rw [listMin, h1]; exact List.mem_cons_self x t
    · exact List.mem_cons_of_mem x (by rw [listMin]; exact h1)

lemma selectLoop_mem (l : List (DeviceInfo × Option ℝ)) (acc : DeviceInfo × Option ℝ) :
    selectLoop l acc = acc.1 ∨ selectLoop l acc ∈ l.map Prod.fst := by
  induction l generalizing acc with
  | nil => exact Or.inl rfl
  | cons p rest ih =>
    rw [selectLoop]
    rcases ih (if scoreGt p.2 acc.2 then p else acc) with h | h
    · rw [h]
      by_cases hgt : scoreGt p.2 acc.2
      · rw [if_pos hgt]; exact Or.inr (by simp)
      · rw [if_neg hgt]; exact Or.inl rfl
    · exact Or.inr (List.mem_cons_of_mem _ h)

lemma scoreGt_irrefl (s : Option ℝ) : ¬ scoreGt s s := by
  cases s with
  | none => exact fun h => h
  | some a => exact fun h => lt_irrefl a h

lemma selectLoop_const (l : List (DeviceInfo × Option ℝ)) (a : DeviceInfo) (s : ℝ)
    (h : ∀ p ∈ l, ∀ u : ℝ, p.2 = some u → u ≤ s) :
    selectLoop l (a, some s) = a := by
  induction l with
  | nil => rfl
  | cons p rest ih =>
    rw [selectLoop, if_neg]
    · exact ih (fun q hq => h q (List.mem_cons_of_mem p hq))
    · intro hgt
      cases hp : p.2 with
      | none => rw [hp] at hgt; exact hgt
      | some u =>
        rw [hp] at hgt
        exact absurd hgt (not_lt.mpr (h p (List.mem_cons_self p rest) u hp))

lemma selectLoop_first_max (l : List (DeviceInfo × Option ℝ)) (M : ℝ) :
    ∀ (j : ℕ) (hj : j < l.length) (a : DeviceInfo) (s : ℝ),
    s < M →
    (∀ p ∈ l, ∀ u : ℝ, p.2 = some u → u ≤ M) →
    (l.get ⟨j, hj⟩).2 = some M →
    (∀ (k : ℕ) (hk : k < j), ∀ u : ℝ, (l.get ⟨k, lt_trans hk hj⟩).2 = some u → u < M) →
    selectLoop l (a, some s) = (l.get ⟨j, hj⟩).1 := by
  induction l with
  | nil => intro j hj; exact absurd hj (by simp)
  | cons p rest ih =>
    intro j hj a s hsM hub hM hfirst
    cases j with
    | zero =>
      have hp2 : p.2 = some M := hM
      rw [selectLoop, if_pos (by rw [hp2]; exact hsM)]
      have hpe : p = (p.1, some M) := by
        cases p with
        | mk p1 p2 => simp only at hp2; rw [hp2]
      rw [hpe]
      exact selectLoop_const rest p.1 M (fun q hq => hub q (List.mem_cons_of_mem p hq))
    | succ k =>
      have hk' : k < rest.length := Nat.lt_of_succ_lt_succ hj
      have hMr : (rest.get ⟨k, hk'⟩).2 = some M := hM
      have hfr : ∀ (k' : ℕ) (hk2 : k' < k), ∀ u : ℝ,
          (rest.get ⟨k', lt_trans hk2 hk'⟩).2 = some u → u < M := by
        intro k' hk2 u hu
        exact hfirst (k' + 1) (Nat.succ_lt_succ hk2) u hu
      have hubr : ∀ q ∈ rest, ∀ u : ℝ, q.2 = some u → u ≤ M :=
        fun q hq => hub q (List.mem_cons_of_mem p hq)
      rw [selectLoop]
      cases hp : p.2 with
      | none =>
        rw [if_neg (show ¬ scoreGt (none : Option ℝ) (a, some s).2 from fun h => h)]
        exact ih k hk' a s hsM hubr hMr hfr
      | some u =>
        have huM : u < M := hfirst 0 (Nat.succ_pos k) u (by exact hp)
        by_cases hgt : s < u
        · rw [if_pos (show scoreGt (some u) (a, some s).2 from hgt)]
          have hpe : p = (p.1, some u) := Prod.ext rfl hp
          rw [hpe]
          exact ih k hk' p.1 u huM hubr hMr hfr
        · rw [if_neg (show ¬ scoreGt (some u) (a, some s).2 from hgt)]
          exact ih k hk' a s hsM hubr hMr hfr

lemma rc_lt_rc {a b c d : ℝ} (ha0 : 0 ≤ a) (hb : 0 ≤ b) (hc : 0 ≤ c) (hd0 : 0 ≤ d)
    (h : b * c < a * d) :
    Real.sqrt b / (Real.sqrt a + Real.sqrt b) < Real.sqrt d / (Real.sqrt c + Real.sqrt d) := by
  have had : 0 < a * d := lt_of_le_of_lt (by positivity) h
  have ha : 0 < a := by
    rcases lt_or_eq_of_le ha0 with h1 | h1
    · exact h1
    · exfalso; rw [← h1, zero_mul] at had; exact lt_irrefl 0 had
  have hd : 0 < d := by
    rcases lt_or_eq_of_le hd0 with h1 | h1
    · exact h1
    · exfalso; rw [← h1, mul_zero] at had; exact lt_irrefl 0 had
  have hden1 : 0 < Real.sqrt a + Real.sqrt b :=
    add_pos_of_pos_of_nonneg (Real.sqrt_pos.mpr ha) (Real.sqrt_nonneg b)
  have hden2 : 0 < Real.sqrt c + Real.sqrt d :=
    add_pos_of_nonneg_of_pos (Real.sqrt_nonneg c) (Real.sqrt_pos.mpr hd)
  rw [div_lt_div_iff hden1 hden2]
  have key : Real.sqrt b * Real.sqrt c < Real.sqrt d * Real.sqrt a := by
    rw [← Real.sqrt_mul hb, ← Real.sqrt_mul hd0]
    exact Real.sqrt_lt_sqrt (by positivity) (by rw [mul_comm d a]; exact h)
  have hcomm : Real.sqrt b * Real.sqrt d = Real.sqrt d * Real.sqrt b := mul_comm _ _
  nlinarith [key, hcomm]

lemma rc_le_rc {a b c d : ℝ} (ha0 : 0 ≤ a) (hb : 0 ≤ b) (hc : 0 ≤ c) (hd0 : 0 ≤ d)
    (hden1 : Real.sqrt a + Real.sqrt b ≠ 0) (hden2 : Real.sqrt c + Real.sqrt d ≠ 0)
    (h : b * c ≤ a * d) :
    Real.sqrt b / (Real.sqrt a + Real.sqrt b) ≤ Real.sqrt d / (Real.sqrt c + Real.sqrt d) := by
  have hden1' : 0 < Real.sqrt a + Real.sqrt b :=
    lt_of_le_of_ne (by positivity) (Ne.symm hden1)
  have hden2' : 0 < Real.sqrt c + Real.sqrt d :=
    lt_of_le_of_ne (by positivity) (Ne.symm hden2)
  rw [div_le_div_iff hden1' hden2']
  have key : Real.sqrt b * Real.sqrt c ≤ Real.sqrt d * Real.sqrt a := by
    rw [← Real.sqrt_mul hb, ← Real.sqrt_mul hd0]
    exact Real.sqrt_le_sqrt (by rw [mul_comm d a]; exact h)
  have hcomm : Real.sqrt b * Real.sqrt d = Real.sqrt d * Real.sqrt b := mul_comm _ _
  nlinarith [key, hcomm]

lemma eval_single (nm : String) (mem : Nat) (d : DeviceInfo) (c m t : Nat) :
    Evaluate ⟨nm, mem, [d]⟩ c m t = some [d] := by
  have h1 : Evaluate ⟨nm, mem, [d]⟩ c m t
      = some [selectLoop [(d, rcScore t [d] d)] (d, rcScore t [d] d)] := rfl
  rw [h1, selectLoop, if_neg (scoreGt_irrefl _), selectLoop]

/-- C10: the Share-Mode Evaluator applies no capacity filter: the requested
cores and memory never influence the result (two runs differing only in
those arguments agree), and the selected device can have fewer free cores
and less free memory than requested. -/
theorem C10_no_capacity_filter :
    (∀ (node : NodeInfo) (c1 m1 c2 m2 t : Nat),
      Evaluate node c1 m1 t = Evaluate node c2 m2 t) ∧
    ∃ (node : NodeInfo) (c m t : Nat) (d : DeviceInfo),
      Evaluate node c m t = some [d] ∧ d.allocatableCores < c ∧ d.allocatableMemory < m := by
  constructor
  · intro node c1 m1 c2 m2 t
    rfl
  · exact ⟨⟨"n", 0, [⟨1, 10, 10, 0, 0⟩]⟩, 20, 20, 5, ⟨1, 10, 10, 0, 0⟩,
      eval_single "n" 0 ⟨1, 10, 10, 0, 0⟩ 20 20 5, by decide, by decide⟩

/-- C6 counterexample: on a node with zero devices the evaluator does not
terminate normally — the source panics indexing `decisionMatrix[0]`
(share.go line 76), modelled as `none`, so there is no fallback result. -/
theorem C6_counterexample :
    Evaluate ⟨"empty", 0, []⟩ 20 20 10 = none := rfl

/-- C6 amended: on a node with zero devices `Evaluate` panics (index out
of range on the empty decision matrix) for every request, modelled as
`none`; there is no defensive fallback in the code. -/
theorem C6_amended_zero_devices_panic (nm : String) (mem c m t : Nat) :
    Evaluate ⟨nm, mem, []⟩ c m t = none := rfl

/-- C2: on any node with at least one device, `Evaluate` returns exactly
one device, and that device belongs to the node's device set. -/
theorem C2_returns_one_member (node : NodeInfo) (c m t : Nat)
    (h : node.devices ≠ []) :
    ∃ d, Evaluate node c m t = some [d] ∧ d ∈ node.devices := by
  cases hd : sortedDevs node with
  | nil =>
    exfalso
    apply h
    have hperm := List.perm_insertionSort devLess node.devices
    rw [sortedDevs] at hd
    rw [hd] at hperm
    exact hperm.nil_eq.symm
  | cons d0 rest =>
    have hperm := List.perm_insertionSort devLess node.devices
    rw [sortedDevs] at hd
    rw [hd] at hperm
    refine ⟨selectLoop ((d0 :: rest).map fun d => (d, rcScore t (d0 :: rest) d))
      (d0, rcScore t (d0 :: rest) d0), ?_, ?_⟩
    · show Evaluate node c m t = _
      unfold Evaluate
      rw [show sortedDevs node = d0 :: rest from hd]
    · have hmem : selectLoop ((d0 :: rest).map fun d => (d, rcScore t (d0 :: rest) d))
          (d0, rcScore t (d0 :: rest) d0) ∈ d0 :: rest := by
        rcases selectLoop_mem ((d0 :: rest).map fun d => (d, rcScore t (d0 :: rest) d))
            (d0, rcScore t (d0 :: rest) d0) with h1 | h1
        · rw [h1]; exact List.mem_cons_self d0 rest
        · simpa using h1
      exact hperm.subset hmem

/-- C2 witness: a concrete one-device node satisfies the hypothesis, and
the theorem yields the selected member. -/
theorem C2_returns_one_member_witness :
    (NodeInfo.mk "n" 16 [⟨1, 10, 10, 0, 0⟩]).devices ≠ [] ∧
    ∃ d, Evaluate ⟨"n", 16, [⟨1, 10, 10, 0, 0⟩]⟩ 20 20 5 = some [d] ∧
      d ∈ (NodeInfo.mk "n" 16 [⟨1, 10, 10, 0, 0⟩]).devices :=
  ⟨by decide, C2_returns_one_member ⟨"n", 16, [⟨1, 10, 10, 0, 0⟩]⟩ 20 20 5 (by decide)⟩

lemma AmaxV_single (est : Nat) (d : DeviceInfo) (i : Fin 4) :
    AmaxV est [d] i = normEntry est [d] d i := by
  rw [AmaxV]
  split <;> rfl

lemma AminV_single (est : Nat) (d : DeviceInfo) (i : Fin 4) :
    AminV est [d] i = normEntry est [d] d i := by
  rw [AminV]
  split <;> rfl

lemma distPosSq_single (est : Nat) (d : DeviceInfo) : distPosSq est [d] d = 0 := by
  rw [distPosSq]
  apply Finset.sum_eq_zero
  intro i _
  rw [AmaxV_single, sub_self]
  exact zero_pow two_ne_zero

lemma distNegSq_single (est : Nat) (d : DeviceInfo) : distNegSq est [d] d = 0 := by
  rw [distNegSq]
  apply Finset.sum_eq_zero
  intro i _
  rw [AminV_single, sub_self]
  exact zero_pow two_ne_zero

lemma rcScore_single (est : Nat) (d : DeviceInfo) : rcScore est [d] d = none := by
  rw [rcScore, distPos, distNeg, distPosSq_single, distNegSq_single, Real.sqrt_zero,
    add_zero, if_pos rfl]

/-- C7 counterexample: on a concrete single-device node both distances of
the only device are zero, and the relative-closeness division is not
guarded — the score is `0 / 0`, IEEE NaN (modelled `none`), not the
constant `0` nor the constant `1`. -/
theorem C7_counterexample :
    distPos 5 (sortedDevs ⟨"n", 16, [⟨1, 10, 10, 0, 0⟩]⟩) ⟨1, 10, 10, 0, 0⟩ = 0 ∧
    distNeg 5 (sortedDevs ⟨"n", 16, [⟨1, 10, 10, 0, 0⟩]⟩) ⟨1, 10, 10, 0, 0⟩ = 0 ∧
    rcScore 5 (sortedDevs ⟨"n", 16, [⟨1, 10, 10, 0, 0⟩]⟩) ⟨1, 10, 10, 0, 0⟩ = none := by
  refine ⟨?_, ?_, ?_⟩
  · rw [show sortedDevs ⟨"n", 16, [⟨1, 10, 10, 0, 0⟩]⟩ = [⟨1, 10, 10, 0, 0⟩] from rfl,
      distPos, distPosSq_single, Real.sqrt_zero]
  · rw [show sortedDevs ⟨"n", 16, [⟨1, 10, 10, 0, 0⟩]⟩ = [⟨1, 10, 10, 0, 0⟩] from rfl,
      distNeg, distNegSq_single, Real.sqrt_zero]
  · rw [show sortedDevs ⟨"n", 16, [⟨1, 10, 10, 0, 0⟩]⟩ = [⟨1, 10, 10, 0, 0⟩] from rfl]
    exact rcScore_single 5 ⟨1, 10, 10, 0, 0⟩

/-- C7 amended: the relative-closeness division of share.go line 154 is
unguarded; on a single-device node the device's distances to its own
ideal and anti-ideal are both zero, its score is NaN (modelled `none`),
and the evaluator still returns that device deterministically because the
running maximum is never replaced when comparisons involve NaN. -/
theorem C7_amended_unguarded_division (nm : String) (mem : Nat) (d : DeviceInfo) (t : Nat) :
    rcScore t (sortedDevs ⟨nm, mem, [d]⟩) d = none ∧
    ∀ c m : Nat, Evaluate ⟨nm, mem, [d]⟩ c m t = some [d] := by
  constructor
  · rw [show sortedDevs ⟨nm, mem, [d]⟩ = [d] from rfl]
    exact rcScore_single t d
  · intro c m
    exact eval_single nm mem d c m t

lemma deviceRow_c (est : Nat) (d : DeviceInfo) :
    deviceRow est d 0 = (d.allocatableCores : ℝ) ∧
    deviceRow est d 1 = (d.allocatableMemory : ℝ) ∧
    deviceRow est d 2 = ((est - d.isolatedTime : Nat) : ℝ) ∧
    deviceRow est d 3 = (d.numberofContainer : ℝ) :=
  ⟨rfl, rfl, rfl, rfl⟩

lemma weightVec_c : weightVec 0 = 0.3 ∧ weightVec 1 = 0.3 ∧
    weightVec 2 = 0.2 ∧ weightVec 3 = 0.2 :=
  ⟨rfl, rfl, rfl, rfl⟩

lemma weightVec_nonneg (i : Fin 4) : 0 ≤ weightVec i := by
  fin_cases i <;> norm_num [weightVec]

lemma deviceRow_nonneg (est : Nat) (d : DeviceInfo) (i : Fin 4) : 0 ≤ deviceRow est d i := by
  fin_cases i <;> simp [deviceRow]

lemma colNorm_nonneg (est : Nat) (ds : List DeviceInfo) (i : Fin 4) : 0 ≤ colNorm est ds i := by
  rw [colNorm]; exact Real.sqrt_nonneg _

lemma normEntry_nonneg (est : Nat) (ds : List DeviceInfo) (d : DeviceInfo) (i : Fin 4) :
    0 ≤ normEntry est ds d i := by
  rw [normEntry]
  split
  · exact le_refl 0
  · exact mul_nonneg (weightVec_nonneg i)
      (div_nonneg (deviceRow_nonneg est d i) (colNorm_nonneg est ds i))

lemma distPosSq_nonneg (est : Nat) (ds : List DeviceInfo) (d : DeviceInfo) :
    0 ≤ distPosSq est ds d :=
  Finset.sum_nonneg fun _ _ => sq_nonneg _

lemma distNegSq_nonneg (est : Nat) (ds : List DeviceInfo) (d : DeviceInfo) :
    0 ≤ distNegSq est ds d :=
  Finset.sum_nonneg fun _ _ => sq_nonneg _

lemma entry_between (est : Nat) (ds : List DeviceInfo) (d : DeviceInfo)
    (hd : d ∈ ds) (i : Fin 4) :
    (AmaxV est ds i ≤ normEntry est ds d i ∧ normEntry est ds d i ≤ AminV est ds i) ∨
    (AminV est ds i ≤ normEntry est ds d i ∧ normEntry est ds d i ≤ AmaxV est ds i) := by
  have hmem : normEntry est ds d i ∈ colEntries est ds i := by
    rw [colEntries]; exact List.mem_map_of_mem _ hd
  rw [AmaxV, AminV]
  by_cases hi : i.val = 3
  · rw [if_pos hi, if_pos hi]
    exact Or.inl ⟨listMin_le_mem hmem, listMax_mem_le hmem⟩
  · rw [if_neg hi, if_neg hi]
    exact Or.inr ⟨listMin_le_mem hmem, listMax_mem_le hmem⟩

lemma rcScore_none_iff (est : Nat) (ds : List DeviceInfo) (d : DeviceInfo) :
    rcScore est ds d = none ↔ distPosSq est ds d = 0 ∧ distNegSq est ds d = 0 := by
  constructor
  · intro hnone
    have hsum : distPos est ds d + distNeg est ds d = 0 := by
      by_contra hne
      rw [rcScore, if_neg hne] at hnone
      exact Option.noConfusion hnone
    have ha : 0 ≤ distPos est ds d := Real.sqrt_nonneg _
    have hb : 0 ≤ distNeg est ds d := Real.sqrt_nonneg _
    have hp : distPos est ds d = 0 := by linarith
    have hn : distNeg est ds d = 0 := by linarith
    rw [distPos, Real.sqrt_eq_zero'] at hp
    rw [distNeg, Real.sqrt_eq_zero'] at hn
    exact ⟨le_antisymm hp (distPosSq_nonneg est ds d), le_antisymm hn (distNegSq_nonneg est ds d)⟩
  · intro ⟨hq, hr⟩
    rw [rcScore, distPos, distNeg, hq, hr, Real.sqrt_zero, add_zero, if_pos rfl]

lemma rcScore_none_all (est : Nat) (ds : List DeviceInfo) (d : DeviceInfo)
    (hd : d ∈ ds) (hnone : rcScore est ds d = none) :
    ∀ e ∈ ds, rcScore est ds e = none := by
  intro e he
  rw [rcScore_none_iff] at hnone ⊢
  obtain ⟨hq, hr⟩ := hnone
  have hmax : ∀ i : Fin 4, normEntry est ds d i = AmaxV est ds i := by
    intro i
    have h1 := (Finset.sum_eq_zero_iff_of_nonneg
      (fun (i : Fin 4) _ => sq_nonneg (normEntry est ds d i - AmaxV est ds i))).mp hq i
      (Finset.mem_univ i)
    have h2 : normEntry est ds d i - AmaxV est ds i = 0 := by
      exact (pow_eq_zero_iff two_ne_zero).mp h1
    linarith
  have hmin : ∀ i : Fin 4, normEntry est ds d i = AminV est ds i := by
    intro i
    have h1 := (Finset.sum_eq_zero_iff_of_nonneg
      (fun (i : Fin 4) _ => sq_nonneg (normEntry est ds d i - AminV est ds i))).mp hr i
      (Finset.mem_univ i)
    have h2 : normEntry est ds d i - AminV est ds i = 0 := by
      exact (pow_eq_zero_iff two_ne_zero).mp h1
    linarith
  have heq : ∀ i : Fin 4, AmaxV est ds i = AminV est ds i :=
    fun i => (hmax i).symm.trans (hmin i)
  have hpin : ∀ i : Fin 4, normEntry est ds e i = AmaxV est ds i := by
    intro i
    rcases entry_between est ds e he i with ⟨h1, h2⟩ | ⟨h1, h2⟩
    · have h3 := heq i; linarith
    · have h3 := heq i; linarith
  constructor
  · apply Finset.sum_eq_zero
    intro i _
    rw [hpin i, sub_self]
    exact zero_pow two_ne_zero
  · apply Finset.sum_eq_zero
    intro i _
    rw [hpin i, heq i, sub_self]
    exact zero_pow two_ne_zero

lemma rcAt_lt (t : Nat) (node : NodeInfo) (k : Nat) (hk : k < (sortedDevs node).length) :
    rcAt t node k = rcScore t (sortedDevs node) ((sortedDevs node).get ⟨k, hk⟩) := by
  unfold rcAt
  rw [List.get?_eq_get hk]

lemma rcAt_ge (t : Nat) (node : NodeInfo) (k : Nat) (hk : (sortedDevs node).length ≤ k) :
    rcAt t node k = none := by
  unfold rcAt
  rw [List.get?_eq_none.mpr hk]

lemma evaluate_first_max (ds : List DeviceInfo) (d0 : DeviceInfo) (rest : List DeviceInfo)
    (hds : ds = d0 :: rest) (t : Nat) (s : ℝ) (i0 : Nat) (hi0 : i0 < ds.length)
    (hP0 : rcScore t ds (ds.get ⟨i0, hi0⟩) = some s)
    (hub : ∀ e ∈ ds, ∀ u : ℝ, rcScore t ds e = some u → u ≤ s)
    (hfirst : ∀ (k : Nat) (hk : k < i0), ∀ u : ℝ,
      rcScore t ds (ds.get ⟨k, lt_trans hk hi0⟩) = some u → u < s) :
    selectLoop (ds.map fun d => (d, rcScore t ds d)) (d0, rcScore t ds d0)
      = ds.get ⟨i0, hi0⟩ := by
  subst hds
  have hplen : ((d0 :: rest).map fun d => (d, rcScore t (d0 :: rest) d)).length
      = (d0 :: rest).length := List.length_map _ _
  have hpl2 : ∀ (k : Nat) (hk : k < (d0 :: rest).length),
      (((d0 :: rest).map fun d => (d, rcScore t (d0 :: rest) d)).get
        ⟨k, by rw [hplen]; exact hk⟩).2
      = rcScore t (d0 :: rest) ((d0 :: rest).get ⟨k, hk⟩) := by
    intro k hk
    rw [List.get_eq_getElem, List.getElem_map, List.get_eq_getElem]
  cases hs0 : rcScore t (d0 :: rest) d0 with
  | none =>
    exfalso
    have hall := rcScore_none_all t (d0 :: rest) d0 (List.mem_cons_self d0 rest) hs0
    have hnone := hall ((d0 :: rest).get ⟨i0, hi0⟩) (List.get_mem _ _ _)
    rw [hnone] at hP0
    exact Option.noConfusion hP0
  | some s0 =>
    have hub_pl : ∀ p ∈ (d0 :: rest).map fun d => (d, rcScore t (d0 :: rest) d),
        ∀ u : ℝ, p.2 = some u → u ≤ s := by
      intro p hp u hu
      obtain ⟨e, he, rfl⟩ := List.mem_map.mp hp
      exact hub e he u hu
    by_cases hi00 : i0 = 0
    · subst hi00
      have hs0s : s0 = s := by
        have hgd : rcScore t (d0 :: rest) d0 = some s := hP0
        rw [hs0] at hgd
        exact Option.some.inj hgd
      rw [hs0s]
      exact selectLoop_const _ d0 s hub_pl
    · have h0lt : 0 < i0 := Nat.pos_of_ne_zero hi00
      have hs0lt : s0 < s := hfirst 0 h0lt s0 hs0
      have hM : (((d0 :: rest).map fun d => (d, rcScore t (d0 :: rest) d)).get
          ⟨i0, by rw [hplen]; exact hi0⟩).2 = some s := by
        rw [hpl2 i0 hi0]; exact hP0
      have hfirst_pl : ∀ (k : Nat) (hk : k < i0), ∀ u : ℝ,
          ((((d0 :: rest).map fun d => (d, rcScore t (d0 :: rest) d)).get
            ⟨k, lt_trans hk (by rw [hplen]; exact hi0)⟩).2 = some u) → u < s := by
        intro k hk u hu
        rw [hpl2 k (lt_trans hk hi0)] at hu
        exact hfirst k hk u hu
      have hres := selectLoop_first_max
        ((d0 :: rest).map fun d => (d, rcScore t (d0 :: rest) d)) s i0
        (by rw [hplen]; exact hi0) d0 s0 hs0lt hub_pl hM hfirst_pl
      rw [hres, List.get_eq_getElem, List.getElem_map, List.get_eq_getElem]

/-- C3: whenever two (or more) devices of the base ordering attain the
same maximum relative-closeness score, `Evaluate` returns the device at
the least base-ordering index whose score is that maximum — the running
maximum of share.go lines 158-173 is replaced only on a strict `>`. -/
theorem C3_tie_break_earliest (node : NodeInfo) (c m t : Nat) (i j : Nat) (s : ℝ)
    (hij : i < j) (hj : j < (sortedDevs node).length)
    (hi : rcAt t node i = some s) (hjs : rcAt t node j = some s)
    (hmax : ∀ (k : Nat) (u : ℝ), rcAt t node k = some u → u ≤ s) :
    ∃ i0 : Nat, i0 ≤ i ∧ rcAt t node i0 = some s ∧
      (∀ (k : Nat) (u : ℝ), k < i0 → rcAt t node k = some u → u < s) ∧
      ∃ d0, (sortedDevs node).get? i0 = some d0 ∧ Evaluate node c m t = some [d0] := by
  classical
  have hex : ∃ k, rcAt t node k = some s := ⟨i, hi⟩
  have hP0 : rcAt t node (Nat.find hex) = some s := Nat.find_spec hex
  have hle : Nat.find hex ≤ i := Nat.find_min' hex hi
  have hfirstlt : ∀ (k : Nat) (u : ℝ), k < Nat.find hex → rcAt t node k = some u → u < s := by
    intro k u hk hu
    rcases lt_or_eq_of_le (hmax k u hu) with h | h
    · exact h
    · exact absurd (h ▸ hu) (Nat.find_min hex hk)
  have hi0len : Nat.find hex < (sortedDevs node).length :=
    lt_of_le_of_lt hle (lt_trans hij hj)
  refine ⟨Nat.find hex, hle, hP0, hfirstlt, (sortedDevs node).get ⟨Nat.find hex, hi0len⟩,
    List.get?_eq_get hi0len, ?_⟩
  have hne : sortedDevs node ≠ [] := by
    intro h0
    rw [h0] at hi0len
    exact absurd hi0len (by simp)
  obtain ⟨d0, rest, hd⟩ := List.exists_cons_of_ne_nil hne
  have hev : Evaluate node c m t = some [selectLoop
      ((d0 :: rest).map fun d => (d, rcScore t (d0 :: rest) d))
      (d0, rcScore t (d0 :: rest) d0)] := by
    unfold Evaluate
    rw [hd]
  have hP0' : rcScore t (sortedDevs node)
      ((sortedDevs node).get ⟨Nat.find hex, hi0len⟩) = some s := by
    rw [← rcAt_lt t node (Nat.find hex) hi0len]; exact hP0
  have hub : ∀ e ∈ sortedDevs node, ∀ u : ℝ,
      rcScore t (sortedDevs node) e = some u → u ≤ s := by
    intro e he u hu
    obtain ⟨n, hn⟩ := List.mem_iff_get.mp he
    apply hmax n.1 u
    rw [rcAt_lt t node n.1 n.2]
    have hge : (sortedDevs node).get ⟨n.1, n.2⟩ = e := hn
    rw [hge]
    exact hu
  have hfirst : ∀ (k : Nat) (hk : k < Nat.find hex), ∀ u : ℝ,
      rcScore t (sortedDevs node)
        ((sortedDevs node).get ⟨k, lt_trans hk hi0len⟩) = some u → u < s := by
    intro k hk u hu
    apply hfirstlt k u hk
    rw [rcAt_lt t node k (lt_trans hk hi0len)]
    exact hu
  have hsel := evaluate_first_max (sortedDevs node) d0 rest hd t s (Nat.find hex)
    hi0len hP0' hub hfirst
  rw [hev, ← hd, hsel]

lemma deviceRow0 (est : Nat) (d : DeviceInfo) : deviceRow est d 0 = (d.allocatableCores : ℝ) := rfl

lemma deviceRow1 (est : Nat) (d : DeviceInfo) : deviceRow est d 1 = (d.allocatableMemory : ℝ) := rfl

lemma deviceRow2 (est : Nat) (d : DeviceInfo) :
    deviceRow est d 2 = ((est - d.isolatedTime : Nat) : ℝ) := rfl

lemma deviceRow3 (est : Nat) (d : DeviceInfo) : deviceRow est d 3 = (d.numberofContainer : ℝ) := rfl

lemma weightVec0 : weightVec 0 = 0.3 := rfl

lemma weightVec1 : weightVec 1 = 0.3 := rfl

lemma weightVec2 : weightVec 2 = 0.2 := rfl

lemma weightVec3 : weightVec 3 = 0.2 := rfl

lemma colNorm_eval (est : Nat) (ds : List DeviceInfo) (i : Fin 4) (v : ℝ) (hv : 0 ≤ v)
    (h : (ds.map fun d => deviceRow est d i ^ 2).sum = v ^ 2) : colNorm est ds i = v := by
  rw [colNorm, h, Real.sqrt_sq hv]

lemma normEntry_zero_col (est : Nat) (ds : List DeviceInfo) (d : DeviceInfo) (i : Fin 4)
    (hi : colNorm est ds i = 0) : normEntry est ds d i = 0 := by
  rw [normEntry, if_pos hi]

lemma tie_sorted : sortedDevs nodeTie = [⟨2, 10, 10, 0, 0⟩, ⟨0, 20, 20, 0, 0⟩, ⟨1, 20, 20, 0, 0⟩] := by
  decide

lemma tie_norm0 : colNorm 0 [⟨2, 10, 10, 0, 0⟩, ⟨0, 20, 20, 0, 0⟩, ⟨1, 20, 20, 0, 0⟩] 0 = 30 := by
  apply colNorm_eval _ _ _ 30 (by norm_num)
  simp [deviceRow0]
  norm_num

lemma tie_norm1 : colNorm 0 [⟨2, 10, 10, 0, 0⟩, ⟨0, 20, 20, 0, 0⟩, ⟨1, 20, 20, 0, 0⟩] 1 = 30 := by
  apply colNorm_eval _ _ _ 30 (by norm_num)
  simp [deviceRow1]
  norm_num

lemma tie_norm2 : colNorm 0 [⟨2, 10, 10, 0, 0⟩, ⟨0, 20, 20, 0, 0⟩, ⟨1, 20, 20, 0, 0⟩] 2 = 0 := by
  apply colNorm_eval _ _ _ 0 (by norm_num)
  simp [deviceRow2]

lemma tie_norm3 : colNorm 0 [⟨2, 10, 10, 0, 0⟩, ⟨0, 20, 20, 0, 0⟩, ⟨1, 20, 20, 0, 0⟩] 3 = 0 := by
  apply colNorm_eval _ _ _ 0 (by norm_num)
  simp [deviceRow3]

lemma tie_e0C : normEntry 0 [⟨2, 10, 10, 0, 0⟩, ⟨0, 20, 20, 0, 0⟩, ⟨1, 20, 20, 0, 0⟩] ⟨2, 10, 10, 0, 0⟩ 0 = 0.1 := by
  rw [normEntry, if_neg (by rw [tie_norm0]; norm_num), tie_norm0, deviceRow0, weightVec0]
  norm_num

lemma tie_e0A : normEntry 0 [⟨2, 10, 10, 0, 0⟩, ⟨0, 20, 20, 0, 0⟩, ⟨1, 20, 20, 0, 0⟩] ⟨0, 20, 20, 0, 0⟩ 0 = 0.2 := by
  rw [normEntry, if_neg (by rw [tie_norm0]; norm_num), tie_norm0, deviceRow0, weightVec0]
  norm_num

lemma tie_e0B : normEntry 0 [⟨2, 10, 10, 0, 0⟩, ⟨0, 20, 20, 0, 0⟩, ⟨1, 20, 20, 0, 0⟩] ⟨1, 20, 20, 0, 0⟩ 0 = 0.2 := by
  rw [normEntry, if_neg (by rw [tie_norm0]; norm_num), tie_norm0, deviceRow0, weightVec0]
  norm_num

lemma tie_e1C : normEntry 0 [⟨2, 10, 10, 0, 0⟩, ⟨0, 20, 20, 0, 0⟩, ⟨1, 20, 20, 0, 0⟩] ⟨2, 10, 10, 0, 0⟩ 1 = 0.1 := by
  rw [normEntry, if_neg (by rw [tie_norm1]; norm_num), tie_norm1, deviceRow1, weightVec1]
  norm_num

lemma tie_e1A : normEntry 0 [⟨2, 10, 10, 0, 0⟩, ⟨0, 20, 20, 0, 0⟩, ⟨1, 20, 20, 0, 0⟩] ⟨0, 20, 20, 0, 0⟩ 1 = 0.2 := by
  rw [normEntry, if_neg (by rw [tie_norm1]; norm_num), tie_norm1, deviceRow1, weightVec1]
  norm_num

lemma tie_e1B : normEntry 0 [⟨2, 10, 10, 0, 0⟩, ⟨0, 20, 20, 0, 0⟩, ⟨1, 20, 20, 0, 0⟩] ⟨1, 20, 20, 0, 0⟩ 1 = 0.2 := by
  rw [normEntry, if_neg (by rw [tie_norm1]; norm_num), tie_norm1, deviceRow1, weightVec1]
  norm_num

lemma tie_ce0 : colEntries 0 [⟨2, 10, 10, 0, 0⟩, ⟨0, 20, 20, 0, 0⟩, ⟨1, 20, 20, 0, 0⟩] 0 = [0.1, 0.2, 0.2] := by
  rw [colEntries]
  simp only [List.map_cons, List.map_nil]
  rw [tie_e0C, tie_e0A, tie_e0B]

lemma tie_ce1 : colEntries 0 [⟨2, 10, 10, 0, 0⟩, ⟨0, 20, 20, 0, 0⟩, ⟨1, 20, 20, 0, 0⟩] 1 = [0.1, 0.2, 0.2] := by
  rw [colEntries]
  simp only [List.map_cons, List.map_nil]
  rw [tie_e1C, tie_e1A, tie_e1B]

lemma tie_ce2 : colEntries 0 [⟨2, 10, 10, 0, 0⟩, ⟨0, 20, 20, 0, 0⟩, ⟨1, 20, 20, 0, 0⟩] 2 = [0, 0, 0] := by
  rw [colEntries]
  simp only [List.map_cons, List.map_nil]
  rw [normEntry_zero_col _ _ _ _ tie_norm2, normEntry_zero_col _ _ _ _ tie_norm2,
    normEntry_zero_col _ _ _ _ tie_norm2]

lemma tie_ce3 : colEntries 0 [⟨2, 10, 10, 0, 0⟩, ⟨0, 20, 20, 0, 0⟩, ⟨1, 20, 20, 0, 0⟩] 3 = [0, 0, 0] := by
  rw [colEntries]
  simp only [List.map_cons, List.map_nil]
  rw [normEntry_zero_col _ _ _ _ tie_norm3, normEntry_zero_col _ _ _ _ tie_norm3,
    normEntry_zero_col _ _ _ _ tie_norm3]

lemma tie_Amax0 : AmaxV 0 [⟨2, 10, 10, 0, 0⟩, ⟨0, 20, 20, 0, 0⟩, ⟨1, 20, 20, 0, 0⟩] 0 = 0.2 := by
  rw [AmaxV, if_neg (by decide), tie_ce0]
  show max (max (0.1 : ℝ) 0.2) 0.2 = 0.2
  rw [max_eq_right (by norm_num : (0.1 : ℝ) ≤ 0.2), max_self]

lemma tie_Amax1 : AmaxV 0 [⟨2, 10, 10, 0, 0⟩, ⟨0, 20, 20, 0, 0⟩, ⟨1, 20, 20, 0, 0⟩] 1 = 0.2 := by
  rw [AmaxV, if_neg (by decide), tie_ce1]
  show max (max (0.1 : ℝ) 0.2) 0.2 = 0.2
  rw [max_eq_right (by norm_num : (0.1 : ℝ) ≤ 0.2), max_self]

lemma tie_Amax2 : AmaxV 0 [⟨2, 10, 10, 0, 0⟩, ⟨0, 20, 20, 0, 0⟩, ⟨1, 20, 20, 0, 0⟩] 2 = 0 := by
  rw [AmaxV, if_neg (by decide), tie_ce2]
  show max (max (0 : ℝ) 0) 0 = 0
  rw [max_self, max_self]

lemma tie_Amax3 : AmaxV 0 [⟨2, 10, 10, 0, 0⟩, ⟨0, 20, 20, 0, 0⟩, ⟨1, 20, 20, 0, 0⟩] 3 = 0 := by
  rw [AmaxV, if_pos (by decide), tie_ce3]
  show min (min (0 : ℝ) 0) 0 = 0
  rw [min_self, min_self]

lemma tie_Amin0 : AminV 0 [⟨2, 10, 10, 0, 0⟩, ⟨0, 20, 20, 0, 0⟩, ⟨1, 20, 20, 0, 0⟩] 0 = 0.1 := by
  rw [AminV, if_neg (by decide), tie_ce0]
  show min (min (0.1 : ℝ) 0.2) 0.2 = 0.1
  rw [min_eq_left (by norm_num : (0.1 : ℝ) ≤ 0.2), min_eq_left (by norm_num : (0.1 : ℝ) ≤ 0.2)]

lemma tie_Amin1 : AminV 0 [⟨2, 10, 10, 0, 0⟩, ⟨0, 20, 20, 0, 0⟩, ⟨1, 20, 20, 0, 0⟩] 1 = 0.1 := by
  rw [AminV, if_neg (by decide), tie_ce1]
  show min (min (0.1 : ℝ) 0.2) 0.2 = 0.1
  rw [min_eq_left (by norm_num : (0.1 : ℝ) ≤ 0.2), min_eq_left (by norm_num : (0.1 : ℝ) ≤ 0.2)]

lemma tie_Amin2 : AminV 0 [⟨2, 10, 10, 0, 0⟩, ⟨0, 20, 20, 0, 0⟩, ⟨1, 20, 20, 0, 0⟩] 2 = 0 := by
  rw [AminV, if_neg (by decide), tie_ce2]
  show min (min (0 : ℝ) 0) 0 = 0
  rw [min_self, min_self]

lemma tie_Amin3 : AminV 0 [⟨2, 10, 10, 0, 0⟩, ⟨0, 20, 20, 0, 0⟩, ⟨1, 20, 20, 0, 0⟩] 3 = 0 := by
  rw [AminV, if_pos (by decide), tie_ce3]
  show max (max (0 : ℝ) 0) 0 = 0
  rw [max_self, max_self]

lemma tie_posC : distPosSq 0 [⟨2, 10, 10, 0, 0⟩, ⟨0, 20, 20, 0, 0⟩, ⟨1, 20, 20, 0, 0⟩] ⟨2, 10, 10, 0, 0⟩ = 0.02 := by
  rw [distPosSq, Fin.sum_univ_four, tie_e0C, tie_e1C,
    normEntry_zero_col _ _ _ _ tie_norm2, normEntry_zero_col _ _ _ _ tie_norm3,
    tie_Amax0, tie_Amax1, tie_Amax2, tie_Amax3]
  norm_num

lemma tie_negC : distNegSq 0 [⟨2, 10, 10, 0, 0⟩, ⟨0, 20, 20, 0, 0⟩, ⟨1, 20, 20, 0, 0⟩] ⟨2, 10, 10, 0, 0⟩ = 0 := by
  rw [distNegSq, Fin.sum_univ_four, tie_e0C, tie_e1C,
    normEntry_zero_col _ _ _ _ tie_norm2, normEntry_zero_col _ _ _ _ tie_norm3,
    tie_Amin0, tie_Amin1, tie_Amin2, tie_Amin3]
  norm_num

lemma tie_posA : distPosSq 0 [⟨2, 10, 10, 0, 0⟩, ⟨0, 20, 20, 0, 0⟩, ⟨1, 20, 20, 0, 0⟩] ⟨0, 20, 20, 0, 0⟩ = 0 := by
  rw [distPosSq, Fin.sum_univ_four, tie_e0A, tie_e1A,
    normEntry_zero_col _ _ _ _ tie_norm2, normEntry_zero_col _ _ _ _ tie_norm3,
    tie_Amax0, tie_Amax1, tie_Amax2, tie_Amax3]
  norm_num

lemma tie_negA : distNegSq 0 [⟨2, 10, 10, 0, 0⟩, ⟨0, 20, 20, 0, 0⟩, ⟨1, 20, 20, 0, 0⟩] ⟨0, 20, 20, 0, 0⟩ = 0.02 := by
  rw [distNegSq, Fin.sum_univ_four, tie_e0A, tie_e1A,
    normEntry_zero_col _ _ _ _ tie_norm2, normEntry_zero_col _ _ _ _ tie_norm3,
    tie_Amin0, tie_Amin1, tie_Amin2, tie_Amin3]
  norm_num

lemma tie_posB : distPosSq 0 [⟨2, 10, 10, 0, 0⟩, ⟨0, 20, 20, 0, 0⟩, ⟨1, 20, 20, 0, 0⟩] ⟨1, 20, 20, 0, 0⟩ = 0 := by
  rw [distPosSq, Fin.sum_univ_four, tie_e0B, tie_e1B,
    normEntry_zero_col _ _ _ _ tie_norm2, normEntry_zero_col _ _ _ _ tie_norm3,
    tie_Amax0, tie_Amax1, tie_Amax2, tie_Amax3]
  norm_num

lemma tie_negB : distNegSq 0 [⟨2, 10, 10, 0, 0⟩, ⟨0, 20, 20, 0, 0⟩, ⟨1, 20, 20, 0, 0⟩] ⟨1, 20, 20, 0, 0⟩ = 0.02 := by
  rw [distNegSq, Fin.sum_univ_four, tie_e0B, tie_e1B,
    normEntry_zero_col _ _ _ _ tie_norm2, normEntry_zero_col _ _ _ _ tie_norm3,
    tie_Amin0, tie_Amin1, tie_Amin2, tie_Amin3]
  norm_num

lemma tie_rcC : rcScore 0 [⟨2, 10, 10, 0, 0⟩, ⟨0, 20, 20, 0, 0⟩, ⟨1, 20, 20, 0, 0⟩] ⟨2, 10, 10, 0, 0⟩ = some 0 := by
  rw [rcScore, distPos, distNeg, tie_posC, tie_negC, Real.sqrt_zero]
  rw [if_neg (by positivity)]
  norm_num

lemma tie_rcA : rcScore 0 [⟨2, 10, 10, 0, 0⟩, ⟨0, 20, 20, 0, 0⟩, ⟨1, 20, 20, 0, 0⟩] ⟨0, 20, 20, 0, 0⟩ = some 1 := by
  rw [rcScore, distPos, distNeg, tie_posA, tie_negA, Real.sqrt_zero]
  have h2 : Real.sqrt 0.02 ≠ 0 := by positivity
  rw [if_neg (by positivity), zero_add, div_self h2]

lemma tie_rcB : rcScore 0 [⟨2, 10, 10, 0, 0⟩, ⟨0, 20, 20, 0, 0⟩, ⟨1, 20, 20, 0, 0⟩] ⟨1, 20, 20, 0, 0⟩ = some 1 := by
  rw [rcScore, distPos, distNeg, tie_posB, tie_negB, Real.sqrt_zero]
  have h2 : Real.sqrt 0.02 ≠ 0 := by positivity
  rw [if_neg (by positivity), zero_add, div_self h2]

lemma tie_rcAt0 : rcAt 0 nodeTie 0 = some 0 := by
  unfold rcAt
  rw [tie_sorted]
  exact tie_rcC

lemma tie_rcAt1 : rcAt 0 nodeTie 1 = some 1 := by
  unfold rcAt
  rw [tie_sorted]
  exact tie_rcA

lemma tie_rcAt2 : rcAt 0 nodeTie 2 = some 1 := by
  unfold rcAt
  rw [tie_sorted]
  exact tie_rcB

lemma tie_rcAt_ge (n : Nat) : rcAt 0 nodeTie (n + 3) = none := by
  apply rcAt_ge
  rw [tie_sorted]
  simp

lemma tie_max : ∀ (k : Nat) (u : ℝ), rcAt 0 nodeTie k = some u → u ≤ 1 := by
  intro k u hu
  match k with
  | 0 =>
    rw [tie_rcAt0] at hu
    have h := Option.some.inj hu
    rw [← h]; norm_num
  | 1 =>
    rw [tie_rcAt1] at hu
    have h := Option.some.inj hu
    rw [← h]
  | 2 =>
    rw [tie_rcAt2] at hu
    have h := Option.some.inj hu
    rw [← h]
  | (n + 3) =>
    rw [tie_rcAt_ge n] at hu
    exact absurd hu (by simp)

/-- C3 witness: on the concrete node with two identical best devices
(ids 0 and 1) and one weaker device, the scores along the base ordering
are `[0, 1, 1]` — indices 1 and 2 tie at the maximum — and the evaluator
returns the device at the least maximal index. -/
theorem C3_tie_break_earliest_witness :
    (1 : Nat) < 2 ∧ 2 < (sortedDevs nodeTie).length ∧
    rcAt 0 nodeTie 1 = some 1 ∧ rcAt 0 nodeTie 2 = some 1 ∧
    (∀ (k : Nat) (u : ℝ), rcAt 0 nodeTie k = some u → u ≤ 1) ∧
    ∃ i0 : Nat, i0 ≤ 1 ∧ rcAt 0 nodeTie i0 = some 1 ∧
      (∀ (k : Nat) (u : ℝ), k < i0 → rcAt 0 nodeTie k = some u → u < 1) ∧
      ∃ d0, (sortedDevs nodeTie).get? i0 = some d0 ∧ Evaluate nodeTie 7 8 0 = some [d0] := by
  have hj : 2 < (sortedDevs nodeTie).length := by rw [tie_sorted]; decide
  exact ⟨by norm_num, hj, tie_rcAt1, tie_rcAt2, tie_max,
    C3_tie_break_earliest nodeTie 7 8 0 1 2 1 (by norm_num) hj tie_rcAt1 tie_rcAt2 tie_max⟩

lemma ex_sorted : sortedDevs node3 = [⟨3, 10, 10, 5, 1⟩, ⟨1, 40, 40, 0, 2⟩, ⟨2, 80, 80, 0, 0⟩] := by
  decide

lemma ex_norm0 : colNorm 10 [⟨3, 10, 10, 5, 1⟩, ⟨1, 40, 40, 0, 2⟩, ⟨2, 80, 80, 0, 0⟩] 0 = 90 := by
  apply colNorm_eval _ _ _ 90 (by norm_num)
  simp [deviceRow0]
  norm_num

lemma ex_norm1 : colNorm 10 [⟨3, 10, 10, 5, 1⟩, ⟨1, 40, 40, 0, 2⟩, ⟨2, 80, 80, 0, 0⟩] 1 = 90 := by
  apply colNorm_eval _ _ _ 90 (by norm_num)
  simp [deviceRow1]
  norm_num

lemma ex_norm2 : colNorm 10 [⟨3, 10, 10, 5, 1⟩, ⟨1, 40, 40, 0, 2⟩, ⟨2, 80, 80, 0, 0⟩] 2 = 15 := by
  apply colNorm_eval _ _ _ 15 (by norm_num)
  simp [deviceRow2]
  norm_num

lemma ex_norm3 : colNorm 10 [⟨3, 10, 10, 5, 1⟩, ⟨1, 40, 40, 0, 2⟩, ⟨2, 80, 80, 0, 0⟩] 3 = Real.sqrt 5 := by
  rw [colNorm]
  congr 1
  simp [deviceRow3]
  norm_num

lemma ex_e0d3 : normEntry 10 [⟨3, 10, 10, 5, 1⟩, ⟨1, 40, 40, 0, 2⟩, ⟨2, 80, 80, 0, 0⟩] ⟨3, 10, 10, 5, 1⟩ 0 = 1 / 30 := by
  rw [normEntry, if_neg (by rw [ex_norm0]; norm_num), ex_norm0, deviceRow0, weightVec0]
  norm_num

lemma ex_e0d1 : normEntry 10 [⟨3, 10, 10, 5, 1⟩, ⟨1, 40, 40, 0, 2⟩, ⟨2, 80, 80, 0, 0⟩] ⟨1, 40, 40, 0, 2⟩ 0 = 2 / 15 := by
  rw [normEntry, if_neg (by rw [ex_norm0]; norm_num), ex_norm0, deviceRow0, weightVec0]
  norm_num

lemma ex_e0d2 : normEntry 10 [⟨3, 10, 10, 5, 1⟩, ⟨1, 40, 40, 0, 2⟩, ⟨2, 80, 80, 0, 0⟩] ⟨2, 80, 80, 0, 0⟩ 0 = 4 / 15 := by
  rw [normEntry, if_neg (by rw [ex_norm0]; norm_num), ex_norm0, deviceRow0, weightVec0]
  norm_num

lemma ex_e1d3 : normEntry 10 [⟨3, 10, 10, 5, 1⟩, ⟨1, 40, 40, 0, 2⟩, ⟨2, 80, 80, 0, 0⟩] ⟨3, 10, 10, 5, 1⟩ 1 = 1 / 30 := by
  rw [normEntry, if_neg (by rw [ex_norm1]; norm_num), ex_norm1, deviceRow1, weightVec1]
  norm_num

lemma ex_e1d1 : normEntry 10 [⟨3, 10, 10, 5, 1⟩, ⟨1, 40, 40, 0, 2⟩, ⟨2, 80, 80, 0, 0⟩] ⟨1, 40, 40, 0, 2⟩ 1 = 2 / 15 := by
  rw [normEntry, if_neg (by rw [ex_norm1]; norm_num), ex_norm1, deviceRow1, weightVec1]
  norm_num

lemma ex_e1d2 : normEntry 10 [⟨3, 10, 10, 5, 1⟩, ⟨1, 40, 40, 0, 2⟩, ⟨2, 80, 80, 0, 0⟩] ⟨2, 80, 80, 0, 0⟩ 1 = 4 / 15 := by
  rw [normEntry, if_neg (by rw [ex_norm1]; norm_num), ex_norm1, deviceRow1, weightVec1]
  norm_num

lemma ex_e2d3 : normEntry 10 [⟨3, 10, 10, 5, 1⟩, ⟨1, 40, 40, 0, 2⟩, ⟨2, 80, 80, 0, 0⟩] ⟨3, 10, 10, 5, 1⟩ 2 = 1 / 15 := by
  rw [normEntry, if_neg (by rw [ex_norm2]; norm_num), ex_norm2, deviceRow2, weightVec2]
  norm_num

lemma ex_e2d1 : normEntry 10 [⟨3, 10, 10, 5, 1⟩, ⟨1, 40, 40, 0, 2⟩, ⟨2, 80, 80, 0, 0⟩] ⟨1, 40, 40, 0, 2⟩ 2 = 2 / 15 := by
  rw [normEntry, if_neg (by rw [ex_norm2]; norm_num), ex_norm2, deviceRow2, weightVec2]
  norm_num

lemma ex_e2d2 : normEntry 10 [⟨3, 10, 10, 5, 1⟩, ⟨1, 40, 40, 0, 2⟩, ⟨2, 80, 80, 0, 0⟩] ⟨2, 80, 80, 0, 0⟩ 2 = 2 / 15 := by
  rw [normEntry, if_neg (by rw [ex_norm2]; norm_num), ex_norm2, deviceRow2, weightVec2]
  norm_num

lemma ex_e3d3 : normEntry 10 [⟨3, 10, 10, 5, 1⟩, ⟨1, 40, 40, 0, 2⟩, ⟨2, 80, 80, 0, 0⟩] ⟨3, 10, 10, 5, 1⟩ 3 = 0.2 * (1 / Real.sqrt 5) := by
  rw [normEntry, if_neg (by rw [ex_norm3]; positivity), ex_norm3, deviceRow3, weightVec3]
  norm_num

lemma ex_e3d1 : normEntry 10 [⟨3, 10, 10, 5, 1⟩, ⟨1, 40, 40, 0, 2⟩, ⟨2, 80, 80, 0, 0⟩] ⟨1, 40, 40, 0, 2⟩ 3 = 0.2 * (2 / Real.sqrt 5) := by
  rw [normEntry, if_neg (by rw [ex_norm3]; positivity), ex_norm3, deviceRow3, weightVec3]
  norm_num

lemma ex_e3d2 : normEntry 10 [⟨3, 10, 10, 5, 1⟩, ⟨1, 40, 40, 0, 2⟩, ⟨2, 80, 80, 0, 0⟩] ⟨2, 80, 80, 0, 0⟩ 3 = 0 := by
  rw [normEntry, if_neg (by rw [ex_norm3]; positivity), ex_norm3, deviceRow3, weightVec3]
  norm_num

lemma ex_ce0 : colEntries 10 [⟨3, 10, 10, 5, 1⟩, ⟨1, 40, 40, 0, 2⟩, ⟨2, 80, 80, 0, 0⟩] 0 = [1 / 30, 2 / 15, 4 / 15] := by
  rw [colEntries]
  simp only [List.map_cons, List.map_nil]
  rw [ex_e0d3, ex_e0d1, ex_e0d2]

lemma ex_ce1 : colEntries 10 [⟨3, 10, 10, 5, 1⟩, ⟨1, 40, 40, 0, 2⟩, ⟨2, 80, 80, 0, 0⟩] 1 = [1 / 30, 2 / 15, 4 / 15] := by
  rw [colEntries]
  simp only [List.map_cons, List.map_nil]
  rw [ex_e1d3, ex_e1d1, ex_e1d2]

lemma ex_ce2 : colEntries 10 [⟨3, 10, 10, 5, 1⟩, ⟨1, 40, 40, 0, 2⟩, ⟨2, 80, 80, 0, 0⟩] 2 = [1 / 15, 2 / 15, 2 / 15] := by
  rw [colEntries]
  simp only [List.map_cons, List.map_nil]
  rw [ex_e2d3, ex_e2d1, ex_e2d2]

lemma ex_ce3 : colEntries 10 [⟨3, 10, 10, 5, 1⟩, ⟨1, 40, 40, 0, 2⟩, ⟨2, 80, 80, 0, 0⟩] 3 = [0.2 * (1 / Real.sqrt 5), 0.2 * (2 / Real.sqrt 5), 0] := by
  rw [colEntries]
  simp only [List.map_cons, List.map_nil]
  rw [ex_e3d3, ex_e3d1, ex_e3d2]

lemma ex_Amax0 : AmaxV 10 [⟨3, 10, 10, 5, 1⟩, ⟨1, 40, 40, 0, 2⟩, ⟨2, 80, 80, 0, 0⟩] 0 = 4 / 15 := by
  rw [AmaxV, if_neg (by decide), ex_ce0]
  show max (max (1 / 30 : ℝ) (2 / 15)) (4 / 15) = 4 / 15
  rw [max_eq_right (by norm_num : (1 / 30 : ℝ) ≤ 2 / 15),
    max_eq_right (by norm_num : (2 / 15 : ℝ) ≤ 4 / 15)]

lemma ex_Amax1 : AmaxV 10 [⟨3, 10, 10, 5, 1⟩, ⟨1, 40, 40, 0, 2⟩, ⟨2, 80, 80, 0, 0⟩] 1 = 4 / 15 := by
  rw [AmaxV, if_neg (by decide), ex_ce1]
  show max (max (1 / 30 : ℝ) (2 / 15)) (4 / 15) = 4 / 15
  rw [max_eq_right (by norm_num : (1 / 30 : ℝ) ≤ 2 / 15),
    max_eq_right (by norm_num : (2 / 15 : ℝ) ≤ 4 / 15)]

lemma ex_Amax2 : AmaxV 10 [⟨3, 10, 10, 5, 1⟩, ⟨1, 40, 40, 0, 2⟩, ⟨2, 80, 80, 0, 0⟩] 2 = 2 / 15 := by
  rw [AmaxV, if_neg (by decide), ex_ce2]
  show max (max (1 / 15 : ℝ) (2 / 15)) (2 / 15) = 2 / 15
  rw [max_eq_right (by norm_num : (1 / 15 : ℝ) ≤ 2 / 15), max_self]

lemma ex_Amax3 : AmaxV 10 [⟨3, 10, 10, 5, 1⟩, ⟨1, 40, 40, 0, 2⟩, ⟨2, 80, 80, 0, 0⟩] 3 = 0 := by
  rw [AmaxV, if_pos (by decide), ex_ce3]
  show min (min (0.2 * (1 / Real.sqrt 5)) (0.2 * (2 / Real.sqrt 5))) 0 = 0
  have h5 : (0 : ℝ) < Real.sqrt 5 := Real.sqrt_pos.mpr (by norm_num)
  have hab : 0.2 * (1 / Real.sqrt 5) ≤ 0.2 * (2 / Real.sqrt 5) := by
    apply mul_le_mul_of_nonneg_left _ (by norm_num : (0 : ℝ) ≤ 0.2)
    exact (div_le_div_right h5).mpr (by norm_num)
  rw [min_eq_left hab, min_eq_right (by positivity)]

lemma ex_Amin0 : AminV 10 [⟨3, 10, 10, 5, 1⟩, ⟨1, 40, 40, 0, 2⟩, ⟨2, 80, 80, 0, 0⟩] 0 = 1 / 30 := by
  rw [AminV, if_neg (by decide), ex_ce0]
  show min (min (1 / 30 : ℝ) (2 / 15)) (4 / 15) = 1 / 30
  rw [min_eq_left (by norm_num : (1 / 30 : ℝ) ≤ 2 / 15),
    min_eq_left (by norm_num : (1 / 30 : ℝ) ≤ 4 / 15)]

lemma ex_Amin1 : AminV 10 [⟨3, 10, 10, 5, 1⟩, ⟨1, 40, 40, 0, 2⟩, ⟨2, 80, 80, 0, 0⟩] 1 = 1 / 30 := by
  rw [AminV, if_neg (by decide), ex_ce1]
  show min (min (1 / 30 : ℝ) (2 / 15)) (4 / 15) = 1 / 30
  rw [min_eq_left (by norm_num : (1 / 30 : ℝ) ≤ 2 / 15),
    min_eq_left (by norm_num : (1 / 30 : ℝ) ≤ 4 / 15)]

lemma ex_Amin2 : AminV 10 [⟨3, 10, 10, 5, 1⟩, ⟨1, 40, 40, 0, 2⟩, ⟨2, 80, 80, 0, 0⟩] 2 = 1 / 15 := by
  rw [AminV, if_neg (by decide), ex_ce2]
  show min (min (1 / 15 : ℝ) (2 / 15)) (2 / 15) = 1 / 15
  rw [min_eq_left (by norm_num : (1 / 15 : ℝ) ≤ 2 / 15),
    min_eq_left (by norm_num : (1 / 15 : ℝ) ≤ 2 / 15)]

lemma ex_Amin3 : AminV 10 [⟨3, 10, 10, 5, 1⟩, ⟨1, 40, 40, 0, 2⟩, ⟨2, 80, 80, 0, 0⟩] 3 = 0.2 * (2 / Real.sqrt 5) := by
  rw [AminV, if_pos (by decide), ex_ce3]
  show max (max (0.2 * (1 / Real.sqrt 5)) (0.2 * (2 / Real.sqrt 5))) 0 = 0.2 * (2 / Real.sqrt 5)
  have h5 : (0 : ℝ) < Real.sqrt 5 := Real.sqrt_pos.mpr (by norm_num)
  have hab : 0.2 * (1 / Real.sqrt 5) ≤ 0.2 * (2 / Real.sqrt 5) := by
    apply mul_le_mul_of_nonneg_left _ (by norm_num : (0 : ℝ) ≤ 0.2)
    exact (div_le_div_right h5).mpr (by norm_num)
  rw [max_eq_right hab, max_eq_left (by positivity)]

lemma ex_pos3 : distPosSq 10 [⟨3, 10, 10, 5, 1⟩, ⟨1, 40, 40, 0, 2⟩, ⟨2, 80, 80, 0, 0⟩] ⟨3, 10, 10, 5, 1⟩ = 91 / 750 := by
  rw [distPosSq, Fin.sum_univ_four, ex_e0d3, ex_e1d3, ex_e2d3, ex_e3d3,
    ex_Amax0, ex_Amax1, ex_Amax2, ex_Amax3]
  have h5 : Real.sqrt 5 ^ 2 = 5 := Real.sq_sqrt (by norm_num)
  have key : (0.2 * (1 / Real.sqrt 5) - 0) ^ 2 = 1 / 125 := by
    rw [sub_zero, mul_pow, div_pow, one_pow, h5]
    norm_num
  rw [key]
  norm_num

lemma ex_pos1 : distPosSq 10 [⟨3, 10, 10, 5, 1⟩, ⟨1, 40, 40, 0, 2⟩, ⟨2, 80, 80, 0, 0⟩] ⟨1, 40, 40, 0, 2⟩ = 76 / 1125 := by
  rw [distPosSq, Fin.sum_univ_four, ex_e0d1, ex_e1d1, ex_e2d1, ex_e3d1,
    ex_Amax0, ex_Amax1, ex_Amax2, ex_Amax3]
  have h5 : Real.sqrt 5 ^ 2 = 5 := Real.sq_sqrt (by norm_num)
  have key : (0.2 * (2 / Real.sqrt 5) - 0) ^ 2 = 4 / 125 := by
    rw [sub_zero, mul_pow, div_pow, h5]
    norm_num
  rw [key]
  norm_num

lemma ex_pos2 : distPosSq 10 [⟨3, 10, 10, 5, 1⟩, ⟨1, 40, 40, 0, 2⟩, ⟨2, 80, 80, 0, 0⟩] ⟨2, 80, 80, 0, 0⟩ = 0 := by
  rw [distPosSq, Fin.sum_univ_four, ex_e0d2, ex_e1d2, ex_e2d2, ex_e3d2,
    ex_Amax0, ex_Amax1, ex_Amax2, ex_Amax3]
  norm_num

lemma ex_neg3 : distNegSq 10 [⟨3, 10, 10, 5, 1⟩, ⟨1, 40, 40, 0, 2⟩, ⟨2, 80, 80, 0, 0⟩] ⟨3, 10, 10, 5, 1⟩ = 1 / 125 := by
  rw [distNegSq, Fin.sum_univ_four, ex_e0d3, ex_e1d3, ex_e2d3, ex_e3d3,
    ex_Amin0, ex_Amin1, ex_Amin2, ex_Amin3]
  have h5 : Real.sqrt 5 ^ 2 = 5 := Real.sq_sqrt (by norm_num)
  have key : (0.2 * (1 / Real.sqrt 5) - 0.2 * (2 / Real.sqrt 5)) ^ 2 = 1 / 125 := by
    have hh : 0.2 * (1 / Real.sqrt 5) - 0.2 * (2 / Real.sqrt 5)
        = -(0.2 * (1 / Real.sqrt 5)) := by ring
    rw [hh, neg_sq, mul_pow, div_pow, one_pow, h5]
    norm_num
  rw [key]
  norm_num

lemma ex_neg1 : distNegSq 10 [⟨3, 10, 10, 5, 1⟩, ⟨1, 40, 40, 0, 2⟩, ⟨2, 80, 80, 0, 0⟩] ⟨1, 40, 40, 0, 2⟩ = 11 / 450 := by
  rw [distNegSq, Fin.sum_univ_four, ex_e0d1, ex_e1d1, ex_e2d1, ex_e3d1,
    ex_Amin0, ex_Amin1, ex_Amin2, ex_Amin3]
  have key : (0.2 * (2 / Real.sqrt 5) - 0.2 * (2 / Real.sqrt 5)) ^ 2 = 0 := by
    rw [sub_self]
    exact zero_pow two_ne_zero
  rw [key]
  norm_num

lemma ex_neg2 : distNegSq 10 [⟨3, 10, 10, 5, 1⟩, ⟨1, 40, 40, 0, 2⟩, ⟨2, 80, 80, 0, 0⟩] ⟨2, 80, 80, 0, 0⟩ = 109 / 750 := by
  rw [distNegSq, Fin.sum_univ_four, ex_e0d2, ex_e1d2, ex_e2d2, ex_e3d2,
    ex_Amin0, ex_Amin1, ex_Amin2, ex_Amin3]
  have h5 : Real.sqrt 5 ^ 2 = 5 := Real.sq_sqrt (by norm_num)
  have key : (0 - 0.2 * (2 / Real.sqrt 5)) ^ 2 = 4 / 125 := by
    rw [zero_sub, neg_sq, mul_pow, div_pow, h5]
    norm_num
  rw [key]
  norm_num

lemma ex_rc3 : rcScore 10 [⟨3, 10, 10, 5, 1⟩, ⟨1, 40, 40, 0, 2⟩, ⟨2, 80, 80, 0, 0⟩] ⟨3, 10, 10, 5, 1⟩
    = some (Real.sqrt (1 / 125) / (Real.sqrt (91 / 750) + Real.sqrt (1 / 125))) := by
  rw [rcScore, distPos, distNeg, ex_pos3, ex_neg3, if_neg (by positivity)]

lemma ex_rc1 : rcScore 10 [⟨3, 10, 10, 5, 1⟩, ⟨1, 40, 40, 0, 2⟩, ⟨2, 80, 80, 0, 0⟩] ⟨1, 40, 40, 0, 2⟩
    = some (Real.sqrt (11 / 450) / (Real.sqrt (76 / 1125) + Real.sqrt (11 / 450))) := by
  rw [rcScore, distPos, distNeg, ex_pos1, ex_neg1, if_neg (by positivity)]

lemma ex_rc2 : rcScore 10 [⟨3, 10, 10, 5, 1⟩, ⟨1, 40, 40, 0, 2⟩, ⟨2, 80, 80, 0, 0⟩] ⟨2, 80, 80, 0, 0⟩
    = some (Real.sqrt (109 / 750) / (Real.sqrt 0 + Real.sqrt (109 / 750))) := by
  rw [rcScore, distPos, distNeg, ex_pos2, ex_neg2, if_neg (by positivity)]

lemma eval_node3 : Evaluate node3 20 20 10 = some [dev2] := by
  have h1 : Evaluate node3 20 20 10 = some [selectLoop
      [(⟨3, 10, 10, 5, 1⟩, rcScore 10 [⟨3, 10, 10, 5, 1⟩, ⟨1, 40, 40, 0, 2⟩, ⟨2, 80, 80, 0, 0⟩] ⟨3, 10, 10, 5, 1⟩),
       (⟨1, 40, 40, 0, 2⟩, rcScore 10 [⟨3, 10, 10, 5, 1⟩, ⟨1, 40, 40, 0, 2⟩, ⟨2, 80, 80, 0, 0⟩] ⟨1, 40, 40, 0, 2⟩),
       (⟨2, 80, 80, 0, 0⟩, rcScore 10 [⟨3, 10, 10, 5, 1⟩, ⟨1, 40, 40, 0, 2⟩, ⟨2, 80, 80, 0, 0⟩] ⟨2, 80, 80, 0, 0⟩)]
      (⟨3, 10, 10, 5, 1⟩, rcScore 10 [⟨3, 10, 10, 5, 1⟩, ⟨1, 40, 40, 0, 2⟩, ⟨2, 80, 80, 0, 0⟩] ⟨3, 10, 10, 5, 1⟩)] := by
    unfold Evaluate
    rw [ex_sorted]
    rfl
  rw [h1, ex_rc3, ex_rc1, ex_rc2]
  have h31 : Real.sqrt (1 / 125) / (Real.sqrt (91 / 750) + Real.sqrt (1 / 125))
      < Real.sqrt (11 / 450) / (Real.sqrt (76 / 1125) + Real.sqrt (11 / 450)) :=
    rc_lt_rc (by norm_num) (by norm_num) (by norm_num) (by norm_num) (by norm_num)
  have h12 : Real.sqrt (11 / 450) / (Real.sqrt (76 / 1125) + Real.sqrt (11 / 450))
      < Real.sqrt (109 / 750) / (Real.sqrt 0 + Real.sqrt (109 / 750)) :=
    rc_lt_rc (by norm_num) (by norm_num) (by norm_num) (by norm_num) (by norm_num)
  rw [selectLoop, if_neg (scoreGt_irrefl _)]
  rw [selectLoop, if_pos (show scoreGt (some (Real.sqrt (11 / 450)
    / (Real.sqrt (76 / 1125) + Real.sqrt (11 / 450))))
    (some (Real.sqrt (1 / 125) / (Real.sqrt (91 / 750) + Real.sqrt (1 / 125)))) from h31)]
  rw [selectLoop, if_pos (show scoreGt (some (Real.sqrt (109 / 750)
    / (Real.sqrt 0 + Real.sqrt (109 / 750))))
    (some (Real.sqrt (11 / 450) / (Real.sqrt (76 / 1125) + Real.sqrt (11 / 450)))) from h12)]
  rw [selectLoop]
  rfl

/-- C1: on the spec's worked example — devices D1(40,40,0,2), D2(80,80,0,0),
D3(10,10,5,1) with request cores 20, memory 20 and estimated time 10 —
the full TOPSIS pipeline of `Evaluate` selects device D2. -/
theorem C1_example_selects_D2 : Evaluate node3 20 20 10 = some [dev2] :=
  eval_node3

lemma commitUsed_itime (nd : NodeInfo) (l : List DeviceInfo) (vc vm it : Nat) :
    ∀ cm ∈ (commitUsed nd l vc vm it).2.2, cm.itime = it := by
  induction l generalizing nd with
  | nil =>
    intro cm hcm
    rw [commitUsed] at hcm
    exact absurd hcm (by simp)
  | cons d rest ih =>
    intro cm hcm
    rw [commitUsed] at hcm
    cases hA : AddUsedResources nd d.id vc vm it with
    | error e =>
      rw [hA] at hcm
      exact absurd hcm (by simp)
    | ok nd' =>
      rw [hA] at hcm
      replace hcm : cm ∈ ({ devId := d.id, cores := vc, memory := vm, itime := it } : Commit)
          :: (commitUsed nd' rest vc vm it).2.2 := hcm
      rcases List.mem_cons.mp hcm with rfl | hmem
      · rfl
      · exact ih nd' cm hmem

/-- C8 amended: provided the node has at least one device (so that the
per-device memory quota division of allocate.go line 99 does not panic),
a failing estimated-execution-time lookup makes `AllocateOne` return that
error immediately: no evaluator result is consumed, no usage is booked
(empty commit trace), and the node state is returned unchanged. -/
theorem C8_amended_lookup_failure_no_mutation (node : NodeInfo) (pod : Pod) (i : Nat)
    (c : Container) (e : String) (hdev : node.devices ≠ [])
    (herr : GetEstimatedTimeOfContainer pod i = Except.error e) :
    AllocateOne node pod i c = some (Except.error e, node, []) := by
  have h0 : ¬ node.devices.length = 0 := by
    intro hl
    exact hdev (List.length_eq_zero.mp hl)
  simp only [AllocateOne]
  rw [if_neg h0, herr]

/-- C8 witness: a concrete node and a pod with no recorded estimate. -/
theorem C8_amended_lookup_failure_no_mutation_witness :
    node3.devices ≠ [] ∧
    GetEstimatedTimeOfContainer podBad 0 = Except.error "estimated time not found" ∧
    AllocateOne node3 podBad 0 ⟨20, 20⟩
      = some (Except.error "estimated time not found", node3, []) :=
  ⟨by decide, rfl,
    C8_amended_lookup_failure_no_mutation node3 podBad 0 ⟨20, 20⟩
      "estimated time not found" (by decide) rfl⟩

/-- C8 counterexample: on a node with zero devices the claim fails as
stated — the estimated-time lookup does fail for this pod, but
`AllocateOne` panics (integer division by a zero device count,
allocate.go line 99, modelled `none`) before reaching the lookup, so it
does not return the lookup error. -/
theorem C8_counterexample :
    GetEstimatedTimeOfContainer podBad 0 = Except.error "estimated time not found" ∧
    AllocateOne ⟨"empty", 0, []⟩ podBad 0 ⟨20, 20⟩ = none :=
  ⟨rfl, rfl⟩

/-- C5 amended: on every successful `AllocateOne` the fourth argument of
every `AddUsedResources` commit is the container's estimated execution
time (allocate.go line 134 passes `int(estimatedTime)`), not zero. -/
theorem C5_amended_commit_itime (node : NodeInfo) (pod : Pod) (i : Nat) (c : Container)
    (devs : List DeviceInfo) (nd : NodeInfo) (tr : List Commit)
    (h : AllocateOne node pod i c = some (Except.ok devs, nd, tr)) :
    ∃ t, GetEstimatedTimeOfContainer pod i = Except.ok t ∧ ∀ cm ∈ tr, cm.itime = t := by
  by_cases h0 : node.devices.length = 0
  · exfalso
    simp only [AllocateOne] at h
    rw [if_pos h0] at h
    exact Option.noConfusion h
  · simp only [AllocateOne] at h
    rw [if_neg h0] at h
    split at h
    · exact absurd h (by simp)
    · rename_i t hest
      refine ⟨t, hest, ?_⟩
      split at h
      · exact Option.noConfusion h
      · rename_i devs' hdo
        split at h
        · exact absurd h (by simp)
        · split at h
          · exact absurd h (by simp)
          · rename_i u nd' tr' hcu
            simp only [Option.some.injEq, Prod.mk.injEq, Except.ok.injEq] at h
            obtain ⟨-, -, htr⟩ := h
            have hkey := commitUsed_itime node devs'
              (if c.vcore < HundredCore then c.vcore else HundredCore)
              (if c.vcore < HundredCore then c.vmemory
                else node.totalVMemory / node.devices.length) t
            rw [hcu] at hkey
            rw [htr] at hkey
            exact hkey

lemma alloc_concrete : AllocateOne node3 pod1 0 ⟨20, 20⟩
    = some (Except.ok [dev2], ⟨"node-a", 1000, [dev1, ⟨2, 60, 60, 10, 1⟩, dev3]⟩,
      [⟨2, 20, 20, 10⟩]) := by
  have hstep : AllocateOne node3 pod1 0 ⟨20, 20⟩ = match Evaluate node3 20 20 10 with
      | none => none
      | some devs =>
        if devs.isEmpty = true then some (.error "failed to allocate for container", node3, [])
        else match commitUsed node3 devs 20 20 10 with
          | (.error e, nd', tr) => some (.error e, nd', tr)
          | (.ok _, nd', tr) => some (.ok devs, nd', tr) := rfl
  rw [hstep, eval_node3]
  rfl

/-- C5 counterexample: a concrete successful share-mode allocation (the
worked-example node, estimated time 10) books its device with fourth
`AddUsedResources` argument `10` — the estimated execution time, not
`0`. -/
theorem C5_counterexample :
    AllocateOne node3 pod1 0 ⟨20, 20⟩
      = some (Except.ok [dev2], ⟨"node-a", 1000, [dev1, ⟨2, 60, 60, 10, 1⟩, dev3]⟩,
        [⟨2, 20, 20, 10⟩]) ∧
    (⟨2, 20, 20, 10⟩ : Commit).itime = 10 :=
  ⟨alloc_concrete, rfl⟩

/-- C5 witness: the amended theorem applied to the concrete successful
allocation. -/
theorem C5_amended_commit_itime_witness :
    AllocateOne node3 pod1 0 ⟨20, 20⟩
      = some (Except.ok [dev2], ⟨"node-a", 1000, [dev1, ⟨2, 60, 60, 10, 1⟩, dev3]⟩,
        [⟨2, 20, 20, 10⟩]) ∧
    ∃ t, GetEstimatedTimeOfContainer pod1 0 = Except.ok t ∧
      ∀ cm ∈ [(⟨2, 20, 20, 10⟩ : Commit)], cm.itime = t :=
  ⟨alloc_concrete,
    C5_amended_commit_itime node3 pod1 0 ⟨20, 20⟩ [dev2]
      ⟨"node-a", 1000, [dev1, ⟨2, 60, 60, 10, 1⟩, dev3]⟩ [⟨2, 20, 20, 10⟩] alloc_concrete⟩

/-- C9: `Allocate` never mutates the input pod — the source only reads it
(the deep copy of allocate.go line 60 receives all writes), so the first
component of the embedded result, the input pod object after the call, is
the unchanged input; and on success the returned pod is the deep copy
with only its annotations extended: its containers and estimated-time
descriptors are those of the input. -/
theorem C9_input_pod_never_mutated (node : NodeInfo) (pod : Pod) (now : Nat) :
    (Allocate node pod now).1 = pod ∧
    ∀ (q : Pod) (nd : NodeInfo),
      (Allocate node pod now).2 = some (Except.ok (q, nd)) →
      q.containers = pod.containers ∧ q.estimatedTimes = pod.estimatedTimes := by
  constructor
  · rfl
  · intro q nd h
    unfold Allocate at h
    cases hl : allocateLoop pod 0 pod.containers pod.annotations node with
    | none =>
      rw [hl] at h
      exact absurd h (by simp)
    | some r =>
      cases r with
      | error e =>
        rw [hl] at h
        exact absurd h (by simp)
      | ok p =>
        obtain ⟨ann, nd'⟩ := p
        rw [hl] at h
        simp only [Option.some.injEq, Except.ok.injEq, Prod.mk.injEq] at h
        obtain ⟨hq, -⟩ := h
        rw [← hq]
        exact ⟨rfl, rfl⟩

lemma allocate_loop_concrete : allocateLoop pod1 0 pod1.containers pod1.annotations node3
    = some (Except.ok
      (setAnn pod1.annotations (predicateGPUIndexKeyBase ++ toString 0) (joinIDs [dev2]),
       ⟨"node-a", 1000, [dev1, ⟨2, 60, 60, 10, 1⟩, dev3]⟩)) := by
  have h1 : allocateLoop pod1 0 pod1.containers pod1.annotations node3
      = match AllocateOne node3 pod1 0 ⟨20, 20⟩ with
        | none => none
        | some (.error e, _, _) => some (.error e)
        | some (.ok devs, nd', _) =>
          allocateLoop pod1 1 []
            (setAnn pod1.annotations (predicateGPUIndexKeyBase ++ toString 0) (joinIDs devs)) nd' := rfl
  rw [h1, alloc_concrete]
  rfl

/-- C9 witness: the concrete successful allocation on the worked-example
node; the original pod is returned unchanged and the result pod differs
only in its annotations. -/
theorem C9_input_pod_never_mutated_witness :
    (Allocate node3 pod1 42).1 = pod1 ∧
    ∃ (q : Pod) (nd : NodeInfo), (Allocate node3 pod1 42).2 = some (Except.ok (q, nd)) ∧
      q.containers = pod1.containers ∧ q.estimatedTimes = pod1.estimatedTimes := by
  have hres : (Allocate node3 pod1 42).2 = some (Except.ok
      ({ pod1 with annotations := setAnn (setAnn (setAnn
          (setAnn pod1.annotations (predicateGPUIndexKeyBase ++ toString 0) (joinIDs [dev2]))
          predicateNodeKey node3.name) gpuAssignedKey "false") predicateTimeKey (toString 42) },
       ⟨"node-a", 1000, [dev1, ⟨2, 60, 60, 10, 1⟩, dev3]⟩)) := by
    have h2 : (Allocate node3 pod1 42).2
        = match allocateLoop pod1 0 pod1.containers pod1.annotations node3 with
          | none => none
          | some (Except.error e) => some (Except.error e)
          | some (Except.ok (ann, nd')) => some (Except.ok ({ pod1 with
              annotations := (setAnn (setAnn (setAnn ann predicateNodeKey node3.name)
                gpuAssignedKey "false") predicateTimeKey (toString 42)) }, nd')) := rfl
    rw [h2, allocate_loop_concrete]
  refine ⟨(C9_input_pod_never_mutated node3 pod1 42).1, _, _, hres,
    (C9_input_pod_never_mutated node3 pod1 42).2 _ _ hres⟩

lemma sum_map_set (l : List DeviceInfo) (k : Nat) (hk : k < l.length) (a : DeviceInfo)
    (f : DeviceInfo → ℝ) :
    ((l.set k a).map f).sum = (l.map f).sum - f (l.get ⟨k, hk⟩) + f a := by
  induction l generalizing k with
  | nil => exact absurd hk (by simp)
  | cons x xs ih =>
    cases k with
    | zero =>
      simp only [List.set, List.map_cons, List.sum_cons, List.get]
      ring
    | succ n =>
      simp only [List.set, List.map_cons, List.sum_cons, List.get]
      rw [ih n (Nat.lt_of_succ_lt_succ hk)]
      ring

lemma list_set_self (l : List DeviceInfo) (k : Nat) (hk : k < l.length) (a : DeviceInfo)
    (ha : l.get ⟨k, hk⟩ = a) : l.set k a = l := by
  induction l generalizing k with
  | nil => exact absurd hk (by simp)
  | cons x xs ih =>
    cases k with
    | zero =>
      simp only [List.get] at ha
      rw [List.set]
      rw [ha]
    | succ n =>
      simp only [List.get] at ha
      rw [List.set]
      rw [ih n (Nat.lt_of_succ_lt_succ hk) ha]

lemma rlist_set_self (l : List ℝ) (k : Nat) (hk : k < l.length) (a : ℝ)
    (ha : l.get ⟨k, hk⟩ = a) : l.set k a = l := by
  induction l generalizing k with
  | nil => exact absurd hk (by simp)
  | cons x xs ih =>
    cases k with
    | zero =>
      simp only [List.get] at ha
      rw [List.set]
      rw [ha]
    | succ n =>
      simp only [List.get] at ha
      rw [List.set]
      rw [ih n (Nat.lt_of_succ_lt_succ hk) ha]

lemma div_sqrt_mono (a b R : ℝ) (ha : 0 ≤ a) (hab : a ≤ b) (hR : 0 ≤ R) :
    a / Real.sqrt (a ^ 2 + R) ≤ b / Real.sqrt (b ^ 2 + R) := by
  have hb0 : 0 ≤ b := le_trans ha hab
  by_cases hb : b = 0
  · have ha0 : a = 0 := le_antisymm (hb ▸ hab) ha
    simp [ha0, hb]
  · have hbpos : 0 < b := lt_of_le_of_ne hb0 (Ne.symm hb)
    have hdenb : 0 < Real.sqrt (b ^ 2 + R) := Real.sqrt_pos.mpr (by nlinarith)
    by_cases haz : a = 0
    · rw [haz, zero_div]
      positivity
    · have hapos : 0 < a := lt_of_le_of_ne ha (Ne.symm haz)
      have hdena : 0 < Real.sqrt (a ^ 2 + R) := Real.sqrt_pos.mpr (by nlinarith)
      rw [div_le_div_iff hdena hdenb]
      have h1 : a * Real.sqrt (b ^ 2 + R) = Real.sqrt (a ^ 2 * (b ^ 2 + R)) := by
        rw [Real.sqrt_mul (sq_nonneg a) (b ^ 2 + R), Real.sqrt_sq ha]
      have h2 : b * Real.sqrt (a ^ 2 + R) = Real.sqrt (b ^ 2 * (a ^ 2 + R)) := by
        rw [Real.sqrt_mul (sq_nonneg b) (a ^ 2 + R), Real.sqrt_sq hb0]
      rw [h1, h2]
      apply Real.sqrt_le_sqrt
      have hsq : a ^ 2 ≤ b ^ 2 := by nlinarith
      nlinarith [mul_le_mul_of_nonneg_right hsq hR]

lemma rcScore_some_elim (est : Nat) (ds : List DeviceInfo) (e : DeviceInfo) (s : ℝ)
    (h : rcScore est ds e = some s) :
    distPos est ds e + distNeg est ds e ≠ 0 ∧
    s = distNeg est ds e / (distPos est ds e + distNeg est ds e) := by
  by_cases hg : distPos est ds e + distNeg est ds e = 0
  · rw [rcScore, if_pos hg] at h
    exact absurd h (by simp)
  · rw [rcScore, if_neg hg] at h
    exact ⟨hg, (Option.some.inj h).symm⟩

lemma bump_row_ne3 (est : Nat) (d : DeviceInfo) (δ : Nat) (i : Fin 4) (hi : ¬ i.val = 3) :
    deviceRow est (bumpCount d δ) i = deviceRow est d i := by
  fin_cases i
  · rfl
  · rfl
  · rfl
  · exact absurd rfl hi

lemma bump_row3 (est : Nat) (d : DeviceInfo) (δ : Nat) :
    deviceRow est (bumpCount d δ) 3 = deviceRow est d 3 + (δ : ℝ) := by
  rw [deviceRow3, deviceRow3]
  show ((d.numberofContainer + δ : Nat) : ℝ) = _
  push_cast
  ring

lemma bump_colNorm_ne3 (est : Nat) (ds : List DeviceInfo) (k : Nat) (hk : k < ds.length)
    (δ : Nat) (i : Fin 4) (hi : ¬ i.val = 3) :
    colNorm est (ds.set k (bumpCount (ds.get ⟨k, hk⟩) δ)) i = colNorm est ds i := by
  rw [colNorm, colNorm]
  congr 1
  rw [sum_map_set ds k hk _ (fun e => deviceRow est e i ^ 2)]
  rw [bump_row_ne3 est _ δ i hi]
  ring

lemma bump_normEntry_ne3 (est : Nat) (ds : List DeviceInfo) (k : Nat) (hk : k < ds.length)
    (δ : Nat) (e : DeviceInfo) (i : Fin 4) (hi : ¬ i.val = 3) :
    normEntry est (ds.set k (bumpCount (ds.get ⟨k, hk⟩) δ)) e i = normEntry est ds e i := by
  rw [normEntry, normEntry, bump_colNorm_ne3 est ds k hk δ i hi]

lemma bump_colEntries_ne3 (est : Nat) (ds : List DeviceInfo) (k : Nat) (hk : k < ds.length)
    (δ : Nat) (i : Fin 4) (hi : ¬ i.val = 3) :
    colEntries est (ds.set k (bumpCount (ds.get ⟨k, hk⟩) δ)) i = colEntries est ds i := by
  rw [colEntries, colEntries]
  have hfun : (fun e => normEntry est (ds.set k (bumpCount (ds.get ⟨k, hk⟩) δ)) e i)
      = fun e => normEntry est ds e i :=
    funext fun e => bump_normEntry_ne3 est ds k hk δ e i hi
  rw [hfun, List.map_set]
  have hval : normEntry est ds (bumpCount (ds.get ⟨k, hk⟩) δ) i
      = normEntry est ds (ds.get ⟨k, hk⟩) i := by
    rw [normEntry, normEntry, bump_row_ne3 est _ δ i hi]
  rw [hval]
  apply rlist_set_self (ds.map fun e => normEntry est ds e i) k
    (by rw [List.length_map]; exact hk)
  rw [List.get_eq_getElem, List.getElem_map, List.get_eq_getElem]

lemma bump_Amax_ne3 (est : Nat) (ds : List DeviceInfo) (k : Nat) (hk : k < ds.length)
    (δ : Nat) (i : Fin 4) (hi : ¬ i.val = 3) :
    AmaxV est (ds.set k (bumpCount (ds.get ⟨k, hk⟩) δ)) i = AmaxV est ds i := by
  rw [AmaxV, AmaxV, bump_colEntries_ne3 est ds k hk δ i hi]

lemma bump_Amin_ne3 (est : Nat) (ds : List DeviceInfo) (k : Nat) (hk : k < ds.length)
    (δ : Nat) (i : Fin 4) (hi : ¬ i.val = 3) :
    AminV est (ds.set k (bumpCount (ds.get ⟨k, hk⟩) δ)) i = AminV est ds i := by
  rw [AminV, AminV, bump_colEntries_ne3 est ds k hk δ i hi]

lemma bump_colNorm3_le (est : Nat) (ds : List DeviceInfo) (k : Nat) (hk : k < ds.length)
    (δ : Nat) :
    colNorm est ds 3 ≤ colNorm est (ds.set k (bumpCount (ds.get ⟨k, hk⟩) δ)) 3 := by
  rw [colNorm, colNorm]
  apply Real.sqrt_le_sqrt
  rw [sum_map_set ds k hk _ (fun e => deviceRow est e 3 ^ 2)]
  have hb := bump_row3 est (ds.get ⟨k, hk⟩) δ
  have ha := deviceRow_nonneg est (ds.get ⟨k, hk⟩) 3
  have hδ : (0 : ℝ) ≤ (δ : ℝ) := Nat.cast_nonneg δ
  nlinarith [hb]

lemma colNorm3_zero_rows (est : Nat) (ds : List DeviceInfo) (h : colNorm est ds 3 = 0) :
    ∀ e ∈ ds, deviceRow est e 3 = 0 := by
  intro e he
  rw [colNorm, Real.sqrt_eq_zero'] at h
  have hnn : ∀ x ∈ ds.map fun q => deviceRow est q 3 ^ 2, 0 ≤ x := by
    intro x hx
    obtain ⟨q, hq, rfl⟩ := List.mem_map.mp hx
    exact sq_nonneg _
  have hsum : (ds.map fun q => deviceRow est q 3 ^ 2).sum = 0 :=
    le_antisymm h (List.sum_nonneg hnn)
  have hmem : deviceRow est e 3 ^ 2 ∈ ds.map fun q => deviceRow est q 3 ^ 2 :=
    List.mem_map_of_mem _ he
  have hle : deviceRow est e 3 ^ 2 ≤ 0 := hsum ▸ List.single_le_sum hnn _ hmem
  exact (pow_eq_zero_iff two_ne_zero).mp (le_antisymm hle (sq_nonneg _))

lemma bump3_R_nonneg (est : Nat) (ds : List DeviceInfo) (k : Nat) (hk : k < ds.length) :
    0 ≤ (ds.map fun e => deviceRow est e 3 ^ 2).sum - deviceRow est (ds.get ⟨k, hk⟩) 3 ^ 2 := by
  have hnn : ∀ x ∈ ds.map fun q => deviceRow est q 3 ^ 2, 0 ≤ x := by
    intro x hx
    obtain ⟨q, hq, rfl⟩ := List.mem_map.mp hx
    exact sq_nonneg _
  have hmem : deviceRow est (ds.get ⟨k, hk⟩) 3 ^ 2 ∈ ds.map fun q => deviceRow est q 3 ^ 2 :=
    List.mem_map_of_mem _ (List.get_mem ds k hk)
  have := List.single_le_sum hnn _ hmem
  linarith

lemma bump3_zd_le (est : Nat) (ds : List DeviceInfo) (k : Nat) (hk : k < ds.length) (δ : Nat) :
    normEntry est ds (ds.get ⟨k, hk⟩) 3
      ≤ normEntry est (ds.set k (bumpCount (ds.get ⟨k, hk⟩) δ))
        (bumpCount (ds.get ⟨k, hk⟩) δ) 3 := by
  by_cases hn : colNorm est ds 3 = 0
  · rw [normEntry, if_pos hn]
    exact normEntry_nonneg _ _ _ _
  · have hnpos : 0 < colNorm est ds 3 :=
      lt_of_le_of_ne (colNorm_nonneg est ds 3) (Ne.symm hn)
    have hn'pos : 0 < colNorm est (ds.set k (bumpCount (ds.get ⟨k, hk⟩) δ)) 3 :=
      lt_of_lt_of_le hnpos (bump_colNorm3_le est ds k hk δ)
    rw [normEntry, if_neg hn, normEntry, if_neg (ne_of_gt hn'pos)]
    apply mul_le_mul_of_nonneg_left _ (weightVec_nonneg 3)
    have hR := bump3_R_nonneg est ds k hk
    have hca : colNorm est ds 3 = Real.sqrt (deviceRow est (ds.get ⟨k, hk⟩) 3 ^ 2
        + ((ds.map fun e => deviceRow est e 3 ^ 2).sum
          - deviceRow est (ds.get ⟨k, hk⟩) 3 ^ 2)) := by
      rw [colNorm]
      congr 1
      ring
    have hca' : colNorm est (ds.set k (bumpCount (ds.get ⟨k, hk⟩) δ)) 3
        = Real.sqrt (deviceRow est (bumpCount (ds.get ⟨k, hk⟩) δ) 3 ^ 2
        + ((ds.map fun e => deviceRow est e 3 ^ 2).sum
          - deviceRow est (ds.get ⟨k, hk⟩) 3 ^ 2)) := by
      rw [colNorm, sum_map_set ds k hk _ (fun e => deviceRow est e 3 ^ 2)]
      congr 1
      ring
    rw [hca, hca']
    apply div_sqrt_mono _ _ _ (deviceRow_nonneg est _ 3) _ hR
    rw [bump_row3]
    have hδ : (0 : ℝ) ≤ (δ : ℝ) := Nat.cast_nonneg δ
    linarith

lemma bump3_other_le (est : Nat) (ds : List DeviceInfo) (k : Nat) (hk : k < ds.length)
    (δ : Nat) (e : DeviceInfo) (he : e ∈ ds) :
    normEntry est (ds.set k (bumpCount (ds.get ⟨k, hk⟩) δ)) e 3 ≤ normEntry est ds e 3 := by
  by_cases hn : colNorm est ds 3 = 0
  · have hrow0 : deviceRow est e 3 = 0 := colNorm3_zero_rows est ds hn e he
    have hL : normEntry est (ds.set k (bumpCount (ds.get ⟨k, hk⟩) δ)) e 3 = 0 := by
      rw [normEntry]
      split
      · rfl
      · rw [hrow0]
        simp
    have hRr : normEntry est ds e 3 = 0 := by
      rw [normEntry, if_pos hn]
    rw [hL, hRr]
  · have hnpos : 0 < colNorm est ds 3 :=
      lt_of_le_of_ne (colNorm_nonneg est ds 3) (Ne.symm hn)
    have hn'pos : 0 < colNorm est (ds.set k (bumpCount (ds.get ⟨k, hk⟩) δ)) 3 :=
      lt_of_lt_of_le hnpos (bump_colNorm3_le est ds k hk δ)
    rw [normEntry, if_neg (ne_of_gt hn'pos), normEntry, if_neg hn]
    apply mul_le_mul_of_nonneg_left _ (weightVec_nonneg 3)
    exact div_le_div_of_nonneg_left (deviceRow_nonneg est e 3) hnpos
      (bump_colNorm3_le est ds k hk δ)

lemma bump3_posterm_le (est : Nat) (ds : List DeviceInfo) (k : Nat) (hk : k < ds.length)
    (δ : Nat) :
    (normEntry est ds (ds.get ⟨k, hk⟩) 3 - AmaxV est ds 3) ^ 2
      ≤ (normEntry est (ds.set k (bumpCount (ds.get ⟨k, hk⟩) δ))
          (bumpCount (ds.get ⟨k, hk⟩) δ) 3
        - AmaxV est (ds.set k (bumpCount (ds.get ⟨k, hk⟩) δ)) 3) ^ 2 := by
  have hdsne : ds ≠ [] := by
    intro h0
    rw [h0] at hk
    exact absurd hk (by simp)
  have hmem_d : ds.get ⟨k, hk⟩ ∈ ds := List.get_mem ds k hk
  have hk' : k < (ds.set k (bumpCount (ds.get ⟨k, hk⟩) δ)).length := by
    rw [List.length_set]
    exact hk
  have hmem_dB : bumpCount (ds.get ⟨k, hk⟩) δ ∈ ds.set k (bumpCount (ds.get ⟨k, hk⟩) δ) := by
    rw [List.mem_iff_getElem]
    exact ⟨k, hk', List.getElem_set_self hk'⟩
  have hA : AmaxV est ds 3 = listMin (colEntries est ds 3) := by
    rw [AmaxV, if_pos (by decide)]
  have hA' : AmaxV est (ds.set k (bumpCount (ds.get ⟨k, hk⟩) δ)) 3
      = listMin (colEntries est (ds.set k (bumpCount (ds.get ⟨k, hk⟩) δ)) 3) := by
    rw [AmaxV, if_pos (by decide)]
  have hm_le : listMin (colEntries est ds 3) ≤ normEntry est ds (ds.get ⟨k, hk⟩) 3 :=
    listMin_le_mem (by rw [colEntries]; exact List.mem_map_of_mem _ hmem_d)
  have hm'_le : listMin (colEntries est (ds.set k (bumpCount (ds.get ⟨k, hk⟩) δ)) 3)
      ≤ normEntry est (ds.set k (bumpCount (ds.get ⟨k, hk⟩) δ))
        (bumpCount (ds.get ⟨k, hk⟩) δ) 3 :=
    listMin_le_mem (by rw [colEntries]; exact List.mem_map_of_mem _ hmem_dB)
  rw [hA, hA']
  have key : normEntry est ds (ds.get ⟨k, hk⟩) 3 - listMin (colEntries est ds 3)
      ≤ normEntry est (ds.set k (bumpCount (ds.get ⟨k, hk⟩) δ))
          (bumpCount (ds.get ⟨k, hk⟩) δ) 3
        - listMin (colEntries est (ds.set k (bumpCount (ds.get ⟨k, hk⟩) δ)) 3) := by
    have hmmem : listMin (colEntries est ds 3) ∈ colEntries est ds 3 :=
      listMin_choice (by
        rw [colEntries]
        intro h0
        exact hdsne (List.map_eq_nil.mp h0))
    obtain ⟨j, hjc, hje⟩ := List.mem_iff_getElem.mp hmmem
    have hj : j < ds.length := by
      rw [colEntries, List.length_map] at hjc
      exact hjc
    simp only [colEntries, List.getElem_map] at hje
    have hje' : normEntry est ds (ds.get ⟨j, hj⟩) 3 = listMin (colEntries est ds 3) := hje
    have hzd := bump3_zd_le est ds k hk δ
    by_cases hjk : j = k
    · subst hjk
      have hje2 : normEntry est ds (ds.get ⟨j, hk⟩) 3 = listMin (colEntries est ds 3) := hje'
      linarith [hm'_le]
    · have hj' : j < (ds.set k (bumpCount (ds.get ⟨k, hk⟩) δ)).length := by
        rw [List.length_set]
        exact hj
      have hset : (ds.set k (bumpCount (ds.get ⟨k, hk⟩) δ)).get ⟨j, hj'⟩ = ds.get ⟨j, hj⟩ :=
        List.getElem_set_ne (fun h => hjk h.symm) hj'
      have hmemj' : ds.get ⟨j, hj⟩ ∈ ds.set k (bumpCount (ds.get ⟨k, hk⟩) δ) := by
        rw [← hset]
        exact List.get_mem _ _ _
      have hmemj : ds.get ⟨j, hj⟩ ∈ ds := List.get_mem ds j hj
      have hstep : listMin (colEntries est (ds.set k (bumpCount (ds.get ⟨k, hk⟩) δ)) 3)
          ≤ normEntry est (ds.set k (bumpCount (ds.get ⟨k, hk⟩) δ)) (ds.get ⟨j, hj⟩) 3 :=
        listMin_le_mem (by rw [colEntries]; exact List.mem_map_of_mem _ hmemj')
      have hstep2 : normEntry est (ds.set k (bumpCount (ds.get ⟨k, hk⟩) δ)) (ds.get ⟨j, hj⟩) 3
          ≤ normEntry est ds (ds.get ⟨j, hj⟩) 3 :=
        bump3_other_le est ds k hk δ _ hmemj
      linarith
  have h1 : 0 ≤ normEntry est ds (ds.get ⟨k, hk⟩) 3 - listMin (colEntries est ds 3) := by
    linarith
  exact pow_le_pow_left h1 key 2

lemma bump3_negterm_le (est : Nat) (ds : List DeviceInfo) (k : Nat) (hk : k < ds.length)
    (δ : Nat) :
    (normEntry est (ds.set k (bumpCount (ds.get ⟨k, hk⟩) δ))
        (bumpCount (ds.get ⟨k, hk⟩) δ) 3
      - AminV est (ds.set k (bumpCount (ds.get ⟨k, hk⟩) δ)) 3) ^ 2
      ≤ (normEntry est ds (ds.get ⟨k, hk⟩) 3 - AminV est ds 3) ^ 2 := by
  have hmem_d : ds.get ⟨k, hk⟩ ∈ ds := List.get_mem ds k hk
  have hk' : k < (ds.set k (bumpCount (ds.get ⟨k, hk⟩) δ)).length := by
    rw [List.length_set]
    exact hk
  have hmem_dB : bumpCount (ds.get ⟨k, hk⟩) δ ∈ ds.set k (bumpCount (ds.get ⟨k, hk⟩) δ) := by
    rw [List.mem_iff_getElem]
    exact ⟨k, hk', List.getElem_set_self hk'⟩
  have hA : AminV est ds 3 = listMax (colEntries est ds 3) := by
    rw [AminV, if_pos (by decide)]
  have hA' : AminV est (ds.set k (bumpCount (ds.get ⟨k, hk⟩) δ)) 3
      = listMax (colEntries est (ds.set k (bumpCount (ds.get ⟨k, hk⟩) δ)) 3) := by
    rw [AminV, if_pos (by decide)]
  have hM_ge : normEntry est ds (ds.get ⟨k, hk⟩) 3 ≤ listMax (colEntries est ds 3) :=
    listMax_mem_le (by rw [colEntries]; exact List.mem_map_of_mem _ hmem_d)
  have hM'_ge : normEntry est (ds.set k (bumpCount (ds.get ⟨k, hk⟩) δ))
        (bumpCount (ds.get ⟨k, hk⟩) δ) 3
      ≤ listMax (colEntries est (ds.set k (bumpCount (ds.get ⟨k, hk⟩) δ)) 3) :=
    listMax_mem_le (by rw [colEntries]; exact List.mem_map_of_mem _ hmem_dB)
  rw [hA, hA']
  have key : listMax (colEntries est (ds.set k (bumpCount (ds.get ⟨k, hk⟩) δ)) 3)
        - normEntry est (ds.set k (bumpCount (ds.get ⟨k, hk⟩) δ))
          (bumpCount (ds.get ⟨k, hk⟩) δ) 3
      ≤ listMax (colEntries est ds 3) - normEntry est ds (ds.get ⟨k, hk⟩) 3 := by
    have hdsne' : colEntries est (ds.set k (bumpCount (ds.get ⟨k, hk⟩) δ)) 3 ≠ [] := by
      rw [colEntries]
      intro h0
      have h1 := List.map_eq_nil.mp h0
      rw [h1] at hk'
      exact absurd hk' (by simp)
    have hMmem := listMax_choice hdsne'
    obtain ⟨j, hjc, hje⟩ := List.mem_iff_getElem.mp hMmem
    have hj' : j < (ds.set k (bumpCount (ds.get ⟨k, hk⟩) δ)).length := by
      rw [colEntries, List.length_map] at hjc
      exact hjc
    have hj : j < ds.length := by
      rw [List.length_set] at hj'
      exact hj'
    simp only [colEntries, List.getElem_map] at hje
    have hzd := bump3_zd_le est ds k hk δ
    by_cases hjk : j = k
    · subst hjk
      rw [List.getElem_set_self hj'] at hje
      have hje2 : normEntry est (ds.set j (bumpCount (ds.get ⟨j, hk⟩) δ))
            (bumpCount (ds.get ⟨j, hk⟩) δ) 3
          = listMax (colEntries est (ds.set j (bumpCount (ds.get ⟨j, hk⟩) δ)) 3) := hje
      linarith [hM_ge]
    · rw [List.getElem_set_ne (fun h => hjk h.symm) hj'] at hje
      have hje2 : normEntry est (ds.set k (bumpCount (ds.get ⟨k, hk⟩) δ)) (ds.get ⟨j, hj⟩) 3
          = listMax (colEntries est (ds.set k (bumpCount (ds.get ⟨k, hk⟩) δ)) 3) := hje
      have hmemj : ds.get ⟨j, hj⟩ ∈ ds := List.get_mem ds j hj
      have hstep2 : normEntry est (ds.set k (bumpCount (ds.get ⟨k, hk⟩) δ)) (ds.get ⟨j, hj⟩) 3
          ≤ normEntry est ds (ds.get ⟨j, hj⟩) 3 :=
        bump3_other_le est ds k hk δ _ hmemj
      have hstep3 : normEntry est ds (ds.get ⟨j, hj⟩) 3 ≤ listMax (colEntries est ds 3) :=
        listMax_mem_le (by rw [colEntries]; exact List.mem_map_of_mem _ hmemj)
      linarith
  have hswap : ∀ a b : ℝ, (a - b) ^ 2 = (b - a) ^ 2 := by
    intro a b
    ring
  rw [hswap (normEntry est (ds.set k (bumpCount (ds.get ⟨k, hk⟩) δ))
      (bumpCount (ds.get ⟨k, hk⟩) δ) 3)
    (listMax (colEntries est (ds.set k (bumpCount (ds.get ⟨k, hk⟩) δ)) 3)),
    hswap (normEntry est ds (ds.get ⟨k, hk⟩) 3) (listMax (colEntries est ds 3))]
  have h1 : 0 ≤ listMax (colEntries est (ds.set k (bumpCount (ds.get ⟨k, hk⟩) δ)) 3)
      - normEntry est (ds.set k (bumpCount (ds.get ⟨k, hk⟩) δ))
        (bumpCount (ds.get ⟨k, hk⟩) δ) 3 := by
    linarith
  exact pow_le_pow_left h1 key 2

lemma bump_distPosSq_le (est : Nat) (ds : List DeviceInfo) (k : Nat) (hk : k < ds.length)
    (δ : Nat) :
    distPosSq est ds (ds.get ⟨k, hk⟩)
      ≤ distPosSq est (ds.set k (bumpCount (ds.get ⟨k, hk⟩) δ)) (bumpCount (ds.get ⟨k, hk⟩) δ) := by
  rw [distPosSq, distPosSq, Fin.sum_univ_four, Fin.sum_univ_four]
  have he : ∀ i : Fin 4, ¬ i.val = 3 →
      normEntry est (ds.set k (bumpCount (ds.get ⟨k, hk⟩) δ)) (bumpCount (ds.get ⟨k, hk⟩) δ) i
      = normEntry est ds (ds.get ⟨k, hk⟩) i := by
    intro i hi
    rw [bump_normEntry_ne3 est ds k hk δ _ i hi]
    rw [normEntry, normEntry, bump_row_ne3 est _ δ i hi]
  rw [he 0 (by decide), he 1 (by decide), he 2 (by decide),
    bump_Amax_ne3 est ds k hk δ 0 (by decide), bump_Amax_ne3 est ds k hk δ 1 (by decide),
    bump_Amax_ne3 est ds k hk δ 2 (by decide)]
  have h3 := bump3_posterm_le est ds k hk δ
  linarith

lemma bump_distNegSq_le (est : Nat) (ds : List DeviceInfo) (k : Nat) (hk : k < ds.length)
    (δ : Nat) :
    distNegSq est (ds.set k (bumpCount (ds.get ⟨k, hk⟩) δ)) (bumpCount (ds.get ⟨k, hk⟩) δ)
      ≤ distNegSq est ds (ds.get ⟨k, hk⟩) := by
  rw [distNegSq, distNegSq, Fin.sum_univ_four, Fin.sum_univ_four]
  have he : ∀ i : Fin 4, ¬ i.val = 3 →
      normEntry est (ds.set k (bumpCount (ds.get ⟨k, hk⟩) δ)) (bumpCount (ds.get ⟨k, hk⟩) δ) i
      = normEntry est ds (ds.get ⟨k, hk⟩) i := by
    intro i hi
    rw [bump_normEntry_ne3 est ds k hk δ _ i hi]
    rw [normEntry, normEntry, bump_row_ne3 est _ δ i hi]
  rw [he 0 (by decide), he 1 (by decide), he 2 (by decide),
    bump_Amin_ne3 est ds k hk δ 0 (by decide), bump_Amin_ne3 est ds k hk δ 1 (by decide),
    bump_Amin_ne3 est ds k hk δ 2 (by decide)]
  have h3 := bump3_negterm_le est ds k hk δ
  linarith

/-- C4: cost-criterion monotonicity of the evaluator's scoring pipeline —
increasing the running-container count of the `k`-th device of the scored
(base-ordered) device list, all other matrix entries of every device
unchanged, never increases that device's relative-closeness score.  The
base ordering itself ignores container counts, so the bumped snapshot
sorts to exactly this modified list. -/
theorem C4_count_monotone (ds : List DeviceInfo) (k : Nat) (hk : k < ds.length)
    (δ est : Nat) (s s' : ℝ)
    (hs : rcScore est ds (ds.get ⟨k, hk⟩) = some s)
    (hs' : rcScore est (ds.set k (bumpCount (ds.get ⟨k, hk⟩) δ))
      (bumpCount (ds.get ⟨k, hk⟩) δ) = some s') :
    s' ≤ s := by
  obtain ⟨hg, hsval⟩ := rcScore_some_elim est ds (ds.get ⟨k, hk⟩) s hs
  obtain ⟨hg', hs'val⟩ := rcScore_some_elim est (ds.set k (bumpCount (ds.get ⟨k, hk⟩) δ))
    (bumpCount (ds.get ⟨k, hk⟩) δ) s' hs'
  rw [hsval, hs'val]
  simp only [distPos, distNeg] at hg hg' ⊢
  have hq := bump_distPosSq_le est ds k hk δ
  have hr := bump_distNegSq_le est ds k hk δ
  apply rc_le_rc
    (distPosSq_nonneg est (ds.set k (bumpCount (ds.get ⟨k, hk⟩) δ)) (bumpCount (ds.get ⟨k, hk⟩) δ))
    (distNegSq_nonneg est (ds.set k (bumpCount (ds.get ⟨k, hk⟩) δ)) (bumpCount (ds.get ⟨k, hk⟩) δ))
    (distPosSq_nonneg est ds (ds.get ⟨k, hk⟩))
    (distNegSq_nonneg est ds (ds.get ⟨k, hk⟩))
    hg' hg
  nlinarith [mul_le_mul_of_nonneg_right hr (distPosSq_nonneg est ds (ds.get ⟨k, hk⟩)),
    mul_le_mul_of_nonneg_left hq (distNegSq_nonneg est ds (ds.get ⟨k, hk⟩))]

lemma wa_norm0 : colNorm 0 [⟨0, 0, 0, 0, 0⟩, ⟨1, 0, 0, 0, 1⟩] 0 = 0 := by
  apply colNorm_eval _ _ _ 0 (by norm_num)
  simp [deviceRow0]

lemma wa_norm1 : colNorm 0 [⟨0, 0, 0, 0, 0⟩, ⟨1, 0, 0, 0, 1⟩] 1 = 0 := by
  apply colNorm_eval _ _ _ 0 (by norm_num)
  simp [deviceRow1]

lemma wa_norm2 : colNorm 0 [⟨0, 0, 0, 0, 0⟩, ⟨1, 0, 0, 0, 1⟩] 2 = 0 := by
  apply colNorm_eval _ _ _ 0 (by norm_num)
  simp [deviceRow2]

lemma wa_norm3 : colNorm 0 [⟨0, 0, 0, 0, 0⟩, ⟨1, 0, 0, 0, 1⟩] 3 = 1 := by
  apply colNorm_eval _ _ _ 1 (by norm_num)
  simp [deviceRow3]

lemma wa_e3a : normEntry 0 [⟨0, 0, 0, 0, 0⟩, ⟨1, 0, 0, 0, 1⟩] ⟨0, 0, 0, 0, 0⟩ 3 = 0 := by
  rw [normEntry, if_neg (by rw [wa_norm3]; norm_num), wa_norm3, deviceRow3, weightVec3]
  norm_num

lemma wa_e3b : normEntry 0 [⟨0, 0, 0, 0, 0⟩, ⟨1, 0, 0, 0, 1⟩] ⟨1, 0, 0, 0, 1⟩ 3 = 0.2 := by
  rw [normEntry, if_neg (by rw [wa_norm3]; norm_num), wa_norm3, deviceRow3, weightVec3]
  norm_num

lemma wa_ce3 : colEntries 0 [⟨0, 0, 0, 0, 0⟩, ⟨1, 0, 0, 0, 1⟩] 3 = [0, 0.2] := by
  rw [colEntries]
  simp only [List.map_cons, List.map_nil]
  rw [wa_e3a, wa_e3b]

lemma wa_ce0 : colEntries 0 [⟨0, 0, 0, 0, 0⟩, ⟨1, 0, 0, 0, 1⟩] 0 = [0, 0] := by
  rw [colEntries]
  simp only [List.map_cons, List.map_nil]
  rw [normEntry_zero_col _ _ _ _ wa_norm0, normEntry_zero_col _ _ _ _ wa_norm0]

lemma wa_ce1 : colEntries 0 [⟨0, 0, 0, 0, 0⟩, ⟨1, 0, 0, 0, 1⟩] 1 = [0, 0] := by
  rw [colEntries]
  simp only [List.map_cons, List.map_nil]
  rw [normEntry_zero_col _ _ _ _ wa_norm1, normEntry_zero_col _ _ _ _ wa_norm1]

lemma wa_ce2 : colEntries 0 [⟨0, 0, 0, 0, 0⟩, ⟨1, 0, 0, 0, 1⟩] 2 = [0, 0] := by
  rw [colEntries]
  simp only [List.map_cons, List.map_nil]
  rw [normEntry_zero_col _ _ _ _ wa_norm2, normEntry_zero_col _ _ _ _ wa_norm2]

lemma wa_pos : distPosSq 0 [⟨0, 0, 0, 0, 0⟩, ⟨1, 0, 0, 0, 1⟩] ⟨1, 0, 0, 0, 1⟩ = 1 / 25 := by
  rw [distPosSq, Fin.sum_univ_four,
    normEntry_zero_col _ _ _ _ wa_norm0, normEntry_zero_col _ _ _ _ wa_norm1,
    normEntry_zero_col _ _ _ _ wa_norm2, wa_e3b]
  rw [AmaxV, if_neg (by decide), wa_ce0, AmaxV, if_neg (by decide), wa_ce1,
    AmaxV, if_neg (by decide), wa_ce2, AmaxV, if_pos (by decide), wa_ce3]
  show ((0 : ℝ) - max 0 0) ^ 2 + (0 - max 0 0) ^ 2 + (0 - max 0 0) ^ 2
    + (0.2 - min (0 : ℝ) 0.2) ^ 2 = 1 / 25
  rw [max_self, min_eq_left (by norm_num : (0 : ℝ) ≤ 0.2)]
  norm_num

lemma wa_neg : distNegSq 0 [⟨0, 0, 0, 0, 0⟩, ⟨1, 0, 0, 0, 1⟩] ⟨1, 0, 0, 0, 1⟩ = 0 := by
  rw [distNegSq, Fin.sum_univ_four,
    normEntry_zero_col _ _ _ _ wa_norm0, normEntry_zero_col _ _ _ _ wa_norm1,
    normEntry_zero_col _ _ _ _ wa_norm2, wa_e3b]
  rw [AminV, if_neg (by decide), wa_ce0, AminV, if_neg (by decide), wa_ce1,
    AminV, if_neg (by decide), wa_ce2, AminV, if_pos (by decide), wa_ce3]
  show ((0 : ℝ) - min 0 0) ^ 2 + (0 - min 0 0) ^ 2 + (0 - min 0 0) ^ 2
    + (0.2 - max (0 : ℝ) 0.2) ^ 2 = 0
  rw [min_self, max_eq_right (by norm_num : (0 : ℝ) ≤ 0.2)]
  norm_num

lemma wa_rc : rcScore 0 [⟨0, 0, 0, 0, 0⟩, ⟨1, 0, 0, 0, 1⟩] ⟨1, 0, 0, 0, 1⟩ = some 0 := by
  rw [rcScore, distPos, distNeg, wa_pos, wa_neg, Real.sqrt_zero]
  rw [if_neg (by positivity)]
  norm_num

lemma wb_norm0 : colNorm 0 [⟨0, 0, 0, 0, 0⟩, ⟨1, 0, 0, 0, 2⟩] 0 = 0 := by
  apply colNorm_eval _ _ _ 0 (by norm_num)
  simp [deviceRow0]

lemma wb_norm1 : colNorm 0 [⟨0, 0, 0, 0, 0⟩, ⟨1, 0, 0, 0, 2⟩] 1 = 0 := by
  apply colNorm_eval _ _ _ 0 (by norm_num)
  simp [deviceRow1]

lemma wb_norm2 : colNorm 0 [⟨0, 0, 0, 0, 0⟩, ⟨1, 0, 0, 0, 2⟩] 2 = 0 := by
  apply colNorm_eval _ _ _ 0 (by norm_num)
  simp [deviceRow2]

lemma wb_norm3 : colNorm 0 [⟨0, 0, 0, 0, 0⟩, ⟨1, 0, 0, 0, 2⟩] 3 = 2 := by
  apply colNorm_eval _ _ _ 2 (by norm_num)
  simp [deviceRow3]

lemma wb_e3a : normEntry 0 [⟨0, 0, 0, 0, 0⟩, ⟨1, 0, 0, 0, 2⟩] ⟨0, 0, 0, 0, 0⟩ 3 = 0 := by
  rw [normEntry, if_neg (by rw [wb_norm3]; norm_num), wb_norm3, deviceRow3, weightVec3]
  norm_num

lemma wb_e3b : normEntry 0 [⟨0, 0, 0, 0, 0⟩, ⟨1, 0, 0, 0, 2⟩] ⟨1, 0, 0, 0, 2⟩ 3 = 0.2 := by
  rw [normEntry, if_neg (by rw [wb_norm3]; norm_num), wb_norm3, deviceRow3, weightVec3]
  norm_num

lemma wb_ce3 : colEntries 0 [⟨0, 0, 0, 0, 0⟩, ⟨1, 0, 0, 0, 2⟩] 3 = [0, 0.2] := by
  rw [colEntries]
  simp only [List.map_cons, List.map_nil]
  rw [wb_e3a, wb_e3b]

lemma wb_ce0 : colEntries 0 [⟨0, 0, 0, 0, 0⟩, ⟨1, 0, 0, 0, 2⟩] 0 = [0, 0] := by
  rw [colEntries]
  simp only [List.map_cons, List.map_nil]
  rw [normEntry_zero_col _ _ _ _ wb_norm0, normEntry_zero_col _ _ _ _ wb_norm0]

lemma wb_ce1 : colEntries 0 [⟨0, 0, 0, 0, 0⟩, ⟨1, 0, 0, 0, 2⟩] 1 = [0, 0] := by
  rw [colEntries]
  simp only [List.map_cons, List.map_nil]
  rw [normEntry_zero_col _ _ _ _ wb_norm1, normEntry_zero_col _ _ _ _ wb_norm1]

lemma wb_ce2 : colEntries 0 [⟨0, 0, 0, 0, 0⟩, ⟨1, 0, 0, 0, 2⟩] 2 = [0, 0] := by
  rw [colEntries]
  simp only [List.map_cons, List.map_nil]
  rw [normEntry_zero_col _ _ _ _ wb_norm2, normEntry_zero_col _ _ _ _ wb_norm2]

lemma wb_pos : distPosSq 0 [⟨0, 0, 0, 0, 0⟩, ⟨1, 0, 0, 0, 2⟩] ⟨1, 0, 0, 0, 2⟩ = 1 / 25 := by
  rw [distPosSq, Fin.sum_univ_four,
    normEntry_zero_col _ _ _ _ wb_norm0, normEntry_zero_col _ _ _ _ wb_norm1,
    normEntry_zero_col _ _ _ _ wb_norm2, wb_e3b]
  rw [AmaxV, if_neg (by decide), wb_ce0, AmaxV, if_neg (by decide), wb_ce1,
    AmaxV, if_neg (by decide), wb_ce2, AmaxV, if_pos (by decide), wb_ce3]
  show ((0 : ℝ) - max 0 0) ^ 2 + (0 - max 0 0) ^ 2 + (0 - max 0 0) ^ 2
    + (0.2 - min (0 : ℝ) 0.2) ^ 2 = 1 / 25
  rw [max_self, min_eq_left (by norm_num : (0 : ℝ) ≤ 0.2)]
  norm_num

lemma wb_neg : distNegSq 0 [⟨0, 0, 0, 0, 0⟩, ⟨1, 0, 0, 0, 2⟩] ⟨1, 0, 0, 0, 2⟩ = 0 := by
  rw [distNegSq, Fin.sum_univ_four,
    normEntry_zero_col _ _ _ _ wb_norm0, normEntry_zero_col _ _ _ _ wb_norm1,
    normEntry_zero_col _ _ _ _ wb_norm2, wb_e3b]
  rw [AminV, if_neg (by decide), wb_ce0, AminV, if_neg (by decide), wb_ce1,
    AminV, if_neg (by decide), wb_ce2, AminV, if_pos (by decide), wb_ce3]
  show ((0 : ℝ) - min 0 0) ^ 2 + (0 - min 0 0) ^ 2 + (0 - min 0 0) ^ 2
    + (0.2 - max (0 : ℝ) 0.2) ^ 2 = 0
  rw [min_self, max_eq_right (by norm_num : (0 : ℝ) ≤ 0.2)]
  norm_num

lemma wb_rc : rcScore 0 [⟨0, 0, 0, 0, 0⟩, ⟨1, 0, 0, 0, 2⟩] ⟨1, 0, 0, 0, 2⟩ = some 0 := by
  rw [rcScore, distPos, distNeg, wb_pos, wb_neg, Real.sqrt_zero]
  rw [if_neg (by positivity)]
  norm_num

/-- Witness for C4 at a concrete input: in the two-device list
`[⟨0,0,0,0,0⟩, ⟨1,0,0,0,1⟩]` the second device scores `some 0`, and after
bumping its container count by one (giving `[⟨0,0,0,0,0⟩, ⟨1,0,0,0,2⟩]`) it
still scores `some 0`, so the monotonicity theorem yields `0 ≤ 0`. -/
theorem C4_count_monotone_witness :
    (1 : Nat) < ([⟨0, 0, 0, 0, 0⟩, ⟨1, 0, 0, 0, 1⟩] : List DeviceInfo).length ∧
    rcScore 0 [⟨0, 0, 0, 0, 0⟩, ⟨1, 0, 0, 0, 1⟩] ⟨1, 0, 0, 0, 1⟩ = some 0 ∧
    rcScore 0 [⟨0, 0, 0, 0, 0⟩, ⟨1, 0, 0, 0, 2⟩] ⟨1, 0, 0, 0, 2⟩ = some 0 ∧
    (0 : ℝ) ≤ 0 :=
  ⟨by decide, wa_rc, wb_rc,
    C4_count_monotone [⟨0, 0, 0, 0, 0⟩, ⟨1, 0, 0, 0, 1⟩] 1 (by decide) 1 0 0 0 wa_rc wb_rc⟩
